import Mathlib

/-!
# env-consumer: a Pub/Sub to Postgres event consumer

A shallow embedding of `main.go`.  The program is glue between three external
capabilities: the process environment (`os.Getenv`), a relational store reached through
`database/sql`, and a Pub/Sub subscription.  The embedding makes every call to such a
capability explicit:

* the environment is a finite map from variable names to values;
* the store is a state machine `Store σ` whose answers (`PingContext`, `ExecContext`)
  are arbitrary functions of the handle, the store state and the statement;
* the transport is a `Platform` whose `Receive` delivers a finite list of messages to the
  handler and then returns a result;
* every call that leaves the process is recorded, in program order, in a trace of
  `Effect`s, and `log.Fatal` (which calls `os.Exit(1)` and skips deferred calls) is an
  explicit `Flow.exit`.

`Receive` runs the callbacks of the delivered messages in goroutines of their own.
`runSchedule` runs any interleaving of deliveries and callback steps; `deliver`, through
which `consumePaymentEvents` and `main` are stated, is the schedule that finishes each
callback before the next delivery (`serial_eq_deliver`).  The goroutine that waits for a
signal is represented by the result `Receive` returns.
-/

namespace EnvConsumer

/-! ## Go values -/

/-- A Go `error` value: a message, and for errors built with the `%w` verb the wrapped
error that `errors.Unwrap` returns. -/
inductive GoError where
  | base (msg : String)
  | wrap (msg : String) (inner : GoError)
  deriving DecidableEq, Repr

namespace GoError

/-- The method `Error()`. -/
def Error : GoError → String
  | base msg => msg
  | wrap msg _ => msg

/-- The function `errors.Unwrap`. -/
def Unwrap : GoError → Option GoError
  | base _ => none
  | wrap _ inner => some inner

end GoError

/-- The verbs of `fmt` used by the program (`%s`, `%v`, `%w`) applied to string operands,
over the characters of the format.  A verb without operand prints Go's `%!v(MISSING)`
marker, and `%%` prints a percent sign. -/
def formatChars : List Char → List String → List Char
  | [], _ => []
  | '%' :: '%' :: rest, args => '%' :: formatChars rest args
  | '%' :: 's' :: rest, a :: args => a.data ++ formatChars rest args
  | '%' :: 'v' :: rest, a :: args => a.data ++ formatChars rest args
  | '%' :: 'w' :: rest, a :: args => a.data ++ formatChars rest args
  | '%' :: c :: rest, [] => "%!".data ++ c :: "(MISSING)".data ++ formatChars rest []
  | c :: rest, args => c :: formatChars rest args

/-- The function `fmt.Sprintf` on string operands. -/
def Sprintf (format : String) (args : List String) : String :=
  String.mk (formatChars format.data args)

/-- The function `fmt.Errorf` with one error operand under `%w`: the message is the
formatted text and the operand is what the result unwraps to. -/
def Errorf (format : String) (err : GoError) : GoError :=
  GoError.wrap (Sprintf format [err.Error]) err

/-! ## The environment -/

/-- The process environment: the variables that are set, with their values. -/
abbrev Env := List (String × String)

/-- The function `os.Getenv`: the value of the variable, or the empty string when the
variable is not set. -/
def Getenv (env : Env) (key : String) : String :=
  match env.lookup key with
  | some v => v
  | none => ""

/-- Whether a variable is set in the environment (`os.LookupEnv`). -/
def isSet (env : Env) (key : String) : Bool :=
  (env.lookup key).isSome

/-! ## Handles, messages and effects -/

/-- A `*sql.DB` handle: the driver name and data source name given to `sql.Open`. -/
structure DB where
  driver : String
  dsn : String
  deriving DecidableEq, Repr

/-- A `*pubsub.Subscription`: the project of its client and the subscription name. -/
structure Subscription where
  project : String
  name : String
  deriving DecidableEq, Repr

/-- A `*pubsub.Message`, with the two fields the program reads. -/
structure Message where
  ID : String
  Data : String
  deriving DecidableEq, Repr

/-- The calls by which the process acts on the outside world, as recorded in a trace.
`nack` belongs to the transport's interface although the program never calls it. -/
inductive Effect where
  | log (line : String)
  | sqlOpen (driver dsn : String)
  | ping (db : DB)
  | exec (db : DB) (query : String) (args : List String)
  | newClient (project : String)
  | receive (sub : Subscription)
  | ack (id : String)
  | nack (id : String)
  | close (db : DB)
  | cancel
  deriving DecidableEq, Repr

/-- How a call ends: it returns a value to its caller, or the process exits inside it
(`log.Fatal` calls `os.Exit(1)`; deferred calls do not run). -/
inductive Flow (α : Type) where
  | ret (a : α)
  | exit (code : Nat)
  deriving DecidableEq, Repr

/-- The result of running a piece of the program: the store state it leaves, the effects
it performed in order, and how it ended. -/
structure Run (σ α : Type) where
  store : σ
  trace : List Effect
  flow : Flow α

/-- The relational store behind a handle, as a state machine over `σ`: the answer of
`PingContext`, and the new state and answer of `ExecContext` for a query and its bound
arguments.  An answer of `none` is Go's `nil` error. -/
structure Store (σ : Type) where
  PingContext : DB → σ → Option GoError
  ExecContext : DB → σ → String → List String → σ × Option GoError

/-- The remaining external capabilities: `sql.Open`, `pubsub.NewClient`, how the
transport library prints a subscription under `%v`, and `Receive`, given by the
messages it delivers to the handler and the result it returns once they are handled. -/
structure Platform where
  sqlOpen : String → String → Option GoError
  NewClient : String → Option GoError
  subscriptionString : Subscription → String
  Receive : Subscription → List Message × Option GoError

/-! ## The program -/

/-- The literal of the create-table statement in `initDB`. -/
def createTableSQL : String := "CREATE TABLE IF NOT EXISTS payment_events (id text);"

/-- The literal of the insert statement in the message handler. -/
def insertSQL : String := "INSERT INTO payment_events VALUES (?)"

/-- The connection string `psqlInfo` computed at the start of `initDB`. -/
def psqlInfo (env : Env) : String :=
  Sprintf "host=%s user=%s password=%s dbname=%s sslmode=disable"
    [Getenv env "PG_HOST", Getenv env "PG_USER", Getenv env "PG_USER", Getenv env "PG_USER"]

/-- The function `initDB`: open, ping, create the table, each step returning
`(nil, wrapped error)` when it fails.  The returned pair is Go's `(*sql.DB, error)`. -/
def initDB {σ : Type} (env : Env) (pf : Platform) (st : Store σ) (s : σ) :
    Run σ (Option DB × Option GoError) :=
  let info := psqlInfo env
  match pf.sqlOpen "postgres" info with
  | some err =>
    ⟨s, [.sqlOpen "postgres" info], .ret (none, some (Errorf "failed opening sql conn: %w" err))⟩
  | none =>
    let db : DB := ⟨"postgres", info⟩
    match st.PingContext db s with
    | some err =>
      ⟨s, [.sqlOpen "postgres" info, .ping db],
        .ret (none, some (Errorf "failed pinging DB: %w" err))⟩
    | none =>
      match st.ExecContext db s createTableSQL [] with
      | (s1, some err) =>
        ⟨s1, [.sqlOpen "postgres" info, .ping db, .exec db createTableSQL []],
          .ret (none, some (Errorf "failed creating paymen events table: %w" err))⟩
      | (s1, none) =>
        ⟨s1, [.sqlOpen "postgres" info, .ping db, .exec db createTableSQL [],
              .log "Successfully connected to DB!"],
          .ret (some db, none)⟩

/-- The function literal passed to `Receive` in `consumePaymentEvents`: log the payload,
insert the identifier, exit the process if the insert failed, acknowledge otherwise. -/
def handler {σ : Type} (st : Store σ) (db : DB) (s : σ) (m : Message) : Run σ Unit :=
  match st.ExecContext db s insertSQL [m.ID] with
  | (s1, some err) =>
    ⟨s1, [.log (Sprintf "Got message: %s" [m.Data]), .exec db insertSQL [m.ID],
          .log err.Error], .exit 1⟩
  | (s1, none) =>
    ⟨s1, [.log (Sprintf "Got message: %s" [m.Data]), .exec db insertSQL [m.ID],
          .ack m.ID], .ret ()⟩

/-- The handler applied to the delivered messages one after another, each callback
finishing before the next message is delivered: the serial schedule of `runSchedule`.
In that schedule a handler that exits the process ends the run. -/
def deliver {σ : Type} (st : Store σ) (db : DB) : σ → List Message → Run σ Unit
  | s, [] => ⟨s, [], .ret ()⟩
  | s, m :: ms =>
    match handler st db s m with
    | ⟨s1, tr, .exit code⟩ => ⟨s1, tr, .exit code⟩
    | ⟨s1, tr, .ret ()⟩ =>
      let r := deliver st db s1 ms
      ⟨r.store, tr ++ r.trace, r.flow⟩

/-- The function `consumePaymentEvents`: call `Receive` with the handler, wrap a non-nil
result, otherwise log and return `nil`. -/
def consumePaymentEvents {σ : Type} (pf : Platform) (st : Store σ) (sub : Subscription)
    (db : DB) (s : σ) : Run σ (Option GoError) :=
  let r := deliver st db s (pf.Receive sub).1
  match r.flow with
  | .exit code => ⟨r.store, .receive sub :: r.trace, .exit code⟩
  | .ret () =>
    match (pf.Receive sub).2 with
    | some err =>
      ⟨r.store, .receive sub :: r.trace,
        .ret (some (Errorf "failed receiving from pubsub: %w" err))⟩
    | none =>
      ⟨r.store, .receive sub :: r.trace ++ [.log "done listening to pubsub"], .ret none⟩

/-- A finished process: the store state it leaves, its trace and its exit status. -/
structure Exit (σ : Type) where
  store : σ
  trace : List Effect
  status : Nat

/-- The function `main`.  A normal return runs the deferred calls, last registered
first (`db.Close`, `cancel`, the farewell log line), and the process exits with status 0;
every `log.Fatal` logs and exits with status 1 without running them.  The branch for a
`nil` handle with a `nil` error stands for the nil dereference Go would raise (exit
status 2); `initDB` never returns that pair. -/
def main {σ : Type} (env : Env) (pf : Platform) (st : Store σ) (s : σ) : Exit σ :=
  let r := initDB env pf st s
  match r.flow with
  | .exit code => ⟨r.store, .log "starting server..." :: r.trace, code⟩
  | .ret (_, some err) =>
    ⟨r.store, .log "starting server..." :: r.trace ++ [.log err.Error], 1⟩
  | .ret (none, none) => ⟨r.store, .log "starting server..." :: r.trace, 2⟩
  | .ret (some db, none) =>
    let gcpProjectName := Getenv env "GCP_PROJECT"
    match pf.NewClient gcpProjectName with
    | some err =>
      ⟨r.store, .log "starting server..." :: r.trace ++
          [.newClient gcpProjectName,
           .log (Sprintf "failed creating pubsub client: %v" [err.Error])], 1⟩
    | none =>
      let sub : Subscription := ⟨gcpProjectName, Getenv env "PAYMENT_SUBSCRIPTION"⟩
      let start : List Effect := .log "starting server..." :: r.trace ++
          [.newClient gcpProjectName,
           .log (Sprintf "starting to consume pubsub subscription %v in project %v..."
                  [pf.subscriptionString sub, gcpProjectName])]
      let c := consumePaymentEvents pf st sub db r.store
      match c.flow with
      | .exit code => ⟨c.store, start ++ c.trace, code⟩
      | .ret (some err) => ⟨c.store, start ++ c.trace ++ [.log err.Error], 1⟩
      | .ret none =>
        ⟨c.store, start ++ c.trace ++ [.close db, .cancel, .log "going down. bye!"], 0⟩

/-! ## Concurrent callbacks

`Receive` starts the callback for each delivered message in a goroutine of its own, so
callbacks of different messages interleave.  A callback is the handler cut at its
calls: log the payload, insert, then either `Ack` or `log.Fatal`, which is the log line
followed by `os.Exit(1)`.  A schedule lists, in the order in which they happen, the
deliveries and the steps taken by the callbacks; `deliver` above is the schedule in
which every callback finishes before the next message is delivered. -/

/-- The point a running callback has reached: before the log line, before the insert,
before `Ack` (the insert returned `nil`), before the log line of `log.Fatal` (the insert
returned `err`), before the `os.Exit(1)` of `log.Fatal`, or returned. -/
inductive Pc where
  | logging
  | inserting
  | acking
  | failing (err : GoError)
  | exiting (err : GoError)
  | finished
  deriving DecidableEq, Repr

/-- The state of the process while `Receive` runs: the store, the effects performed so
far, each with the index of the callback that performed it, the callbacks in order of
delivery with the point each has reached, and the exit status once `os.Exit` has run. -/
structure Pool (σ : Type) where
  store : σ
  trace : List (Nat × Effect)
  callbacks : List (Message × Pc)
  status : Option Nat

/-- What happens next while `Receive` runs: a message is delivered and its callback
started, or the callback with the given index takes its next step. -/
inductive Event where
  | deliver (m : Message)
  | step (i : Nat)
  deriving DecidableEq, Repr

/-- One step of the callback with index `i`, following the handler: the log line, the
insert (whose answer decides between `Ack` and `log.Fatal`), then `Ack`, or the log line
of `log.Fatal` and after it `os.Exit(1)`.  A callback that has returned, or an index with
no callback, does nothing. -/
def stepCallback {σ : Type} (st : Store σ) (db : DB) (p : Pool σ) (i : Nat) : Pool σ :=
  match p.callbacks[i]? with
  | none => p
  | some (m, .logging) =>
    ⟨p.store, p.trace ++ [(i, .log (Sprintf "Got message: %s" [m.Data]))],
      p.callbacks.set i (m, .inserting), p.status⟩
  | some (m, .inserting) =>
    match st.ExecContext db p.store insertSQL [m.ID] with
    | (s1, some err) =>
      ⟨s1, p.trace ++ [(i, .exec db insertSQL [m.ID])],
        p.callbacks.set i (m, .failing err), p.status⟩
    | (s1, none) =>
      ⟨s1, p.trace ++ [(i, .exec db insertSQL [m.ID])],
        p.callbacks.set i (m, .acking), p.status⟩
  | some (m, .acking) =>
    ⟨p.store, p.trace ++ [(i, .ack m.ID)], p.callbacks.set i (m, .finished), p.status⟩
  | some (m, .failing err) =>
    ⟨p.store, p.trace ++ [(i, .log err.Error)], p.callbacks.set i (m, .exiting err),
      p.status⟩
  | some (_, .exiting _) => ⟨p.store, p.trace, p.callbacks, some 1⟩
  | some (_, .finished) => p

/-- One event of a schedule.  Once the process has exited nothing happens any more: no
message is delivered and no callback takes a step. -/
def runEvent {σ : Type} (st : Store σ) (db : DB) (p : Pool σ) (ev : Event) : Pool σ :=
  match p.status with
  | some _ => p
  | none =>
    match ev with
    | .deliver m => ⟨p.store, p.trace, p.callbacks ++ [(m, .logging)], p.status⟩
    | .step i => stepCallback st db p i

/-- A schedule run from a pool, event after event. -/
def runSchedule {σ : Type} (st : Store σ) (db : DB) (p : Pool σ) (evs : List Event) :
    Pool σ :=
  evs.foldl (runEvent st db) p

/-- The pool when `Receive` is called: no callback started, the process running. -/
def startPool {σ : Type} (s : σ) : Pool σ := ⟨s, [], [], none⟩

/-- The effects of a trace in order, without the callback indices. -/
def effectsOf (tr : List (Nat × Effect)) : List Effect := tr.map Prod.snd

/-- The effects the callback with index `i` performed, in order. -/
def effectsBy (i : Nat) (tr : List (Nat × Effect)) : List Effect :=
  (tr.filter fun e => e.1 == i).map Prod.snd

/-- The schedule in which each message is delivered and its callback runs to its end
before the next message is delivered. -/
def serial (first : Nat) : List Message → List Event
  | [] => []
  | m :: ms =>
    [.deliver m, .step first, .step first, .step first, .step first] ++ serial (first + 1) ms

/-- The exit status that a way of ending leaves: none while the process runs on. -/
def exitStatus {α : Type} : Flow α → Option Nat
  | .ret _ => none
  | .exit code => some code

/-- The effects a callback has performed when it has reached a given point (none for an
index with no callback). -/
def effectsAt (db : DB) : Option (Message × Pc) → List Effect
  | none => []
  | some (_, .logging) => []
  | some (m, .inserting) => [.log (Sprintf "Got message: %s" [m.Data])]
  | some (m, .acking) =>
    [.log (Sprintf "Got message: %s" [m.Data]), .exec db insertSQL [m.ID]]
  | some (m, .failing _) =>
    [.log (Sprintf "Got message: %s" [m.Data]), .exec db insertSQL [m.ID]]
  | some (m, .exiting err) =>
    [.log (Sprintf "Got message: %s" [m.Data]), .exec db insertSQL [m.ID], .log err.Error]
  | some (m, .finished) =>
    [.log (Sprintf "Got message: %s" [m.Data]), .exec db insertSQL [m.ID], .ack m.ID]

/-! ## Observations on traces -/

/-- The number of `Ack` calls in a trace. -/
def ackCount (tr : List Effect) : Nat :=
  tr.countP fun e => match e with
    | .ack _ => true
    | _ => false

/-- The number of `Nack` calls in a trace. -/
def nackCount (tr : List Effect) : Nat :=
  tr.countP fun e => match e with
    | .nack _ => true
    | _ => false

/-- The statements sent to the store in a trace, each with its bound arguments. -/
def statements (tr : List Effect) : List (String × List String) :=
  tr.filterMap fun e => match e with
    | .exec _ q args => some (q, args)
    | _ => none

/-- Whether `Receive` is called in a trace. -/
def receives (tr : List Effect) : Bool :=
  tr.any fun e => match e with
    | .receive _ => true
    | _ => false

/-- Whether a pub/sub client is created in a trace. -/
def createsClient (tr : List Effect) : Bool :=
  tr.any fun e => match e with
    | .newClient _ => true
    | _ => false

/-! ## The table `payment_events` -/

/-- The state of a store as far as the program's two statements go: `none` while the
table `payment_events` does not exist, otherwise its rows, each row being the value of
its one column `id text`. -/
abbrev Table := Option (List String)

/-- A store that is reachable and executes the program's two statements on the table:
`CREATE TABLE IF NOT EXISTS` creates the empty table unless it exists, and the insert
with one bound value appends that value as a row; the table declares no key, so no
insert is rejected as a duplicate.  Any other statement, and an insert into a missing
table, is answered with an error and leaves the state as it is. -/
def tableStore : Store Table where
  PingContext := fun _ _ => none
  ExecContext := fun _ t q args =>
    if q = createTableSQL then
      match t with
      | none => (some [], none)
      | some rows => (some rows, none)
    else if q = insertSQL then
      match t, args with
      | some rows, [v] => (some (rows ++ [v]), none)
      | _, _ => (t, some (.base "pq: insert failed"))
    else (t, some (.base "pq: unsupported statement"))

/-- The rows of the table (none when it does not exist). -/
def rowsOf (t : Table) : List String :=
  match t with
  | none => []
  | some rows => rows

/-! ## Concrete instances -/

/-- A store that acts as `tableStore` except that it answers the insert of one
identifier with an error and leaves the table as it is. -/
def rejecting (bad : String) : Store Table where
  PingContext := fun _ _ => none
  ExecContext := fun db t q args =>
    if q = insertSQL ∧ args = [bad] then (t, some (.base "pq: connection refused"))
    else tableStore.ExecContext db t q args

/-- A store that cannot be reached: the ping and every statement are answered with an
error. -/
def unreachable : Store Table where
  PingContext := fun _ _ => some (.base "dial tcp: connection refused")
  ExecContext := fun _ t _ _ => (t, some (.base "dial tcp: connection refused"))

/-- An environment that sets the four variables the program reads. -/
def fullEnv : Env :=
  [("PG_HOST", "db.internal"), ("PG_USER", "payments"), ("GCP_PROJECT", "acme"),
    ("PAYMENT_SUBSCRIPTION", "payment-events")]

/-- The message of the specification's example scenario. -/
def evt123 : Message := ⟨"evt-123", "payload"⟩

/-- The handle `initDB` opens in an environment without store variables. -/
def localDB : DB := ⟨"postgres", "host= user= password= dbname= sslmode=disable"⟩

/-- A platform on which `sql.Open` and `pubsub.NewClient` succeed and `Receive` delivers
the given messages and then returns the given result. -/
def scripted (msgs : List Message) (result : Option GoError) : Platform where
  sqlOpen := fun _ _ => none
  NewClient := fun _ => none
  subscriptionString := fun sub =>
    Sprintf "projects/%s/subscriptions/%s" [sub.project, sub.name]
  Receive := fun _ => (msgs, result)

/-- Three deliveries whose callbacks overlap: the first message is handled, the callback
of the second logs its payload, the callback of the third runs to its `Ack`, and only
then the second callback issues its insert and, the insert failing, goes through
`log.Fatal`; the third callback is stepped once more after the exit. -/
def overlapping : List Event :=
  [.deliver evt123, .deliver ⟨"evt-124", "second"⟩, .deliver ⟨"evt-125", "third"⟩,
    .step 0, .step 0, .step 0, .step 1, .step 2, .step 2, .step 2, .step 1, .step 1,
    .step 1, .step 2]

/-- The handle `initDB` builds in an environment: driver `postgres` and the connection
string of that environment. -/
def handleOf (env : Env) : DB := ⟨"postgres", psqlInfo env⟩

/-- The subscription `main` consumes in an environment. -/
def subscriptionOf (env : Env) : Subscription :=
  ⟨Getenv env "GCP_PROJECT", Getenv env "PAYMENT_SUBSCRIPTION"⟩

/-! ## Auxiliary facts -/

theorem handler_of_ok {σ : Type} (st : Store σ) (db : DB) (s : σ) (m : Message)
    (h : (st.ExecContext db s insertSQL [m.ID]).2 = none) :
    handler st db s m =
      ⟨(st.ExecContext db s insertSQL [m.ID]).1,
        [.log (Sprintf "Got message: %s" [m.Data]), .exec db insertSQL [m.ID], .ack m.ID],
        .ret ()⟩ := by
  unfold handler
  rcases hx : st.ExecContext db s insertSQL [m.ID] with ⟨s1, _ | err⟩
  · rfl
  · rw [hx] at h; cases h

theorem handler_of_error {σ : Type} (st : Store σ) (db : DB) (s : σ) (m : Message)
    (err : GoError) (h : (st.ExecContext db s insertSQL [m.ID]).2 = some err) :
    handler st db s m =
      ⟨(st.ExecContext db s insertSQL [m.ID]).1,
        [.log (Sprintf "Got message: %s" [m.Data]), .exec db insertSQL [m.ID],
          .log err.Error],
        .exit 1⟩ := by
  unfold handler
  rcases hx : st.ExecContext db s insertSQL [m.ID] with ⟨s1, _ | e⟩
  · rw [hx] at h; cases h
  · rw [hx] at h; cases h; rfl

/-! ## C1 -/

/-- C1: the handler calls `Ack` exactly when the insert returned no error: the trace of
one handler run holds one `Ack` (of the handled message) when the insert succeeded and
none when it failed, in which case the process exits before `Ack` is reached. -/
theorem handler_ack_iff_insert_ok {σ : Type} (st : Store σ) (db : DB) (s : σ)
    (m : Message) :
    (Effect.ack m.ID ∈ (handler st db s m).trace ↔
        (st.ExecContext db s insertSQL [m.ID]).2 = none) ∧
    (0 < ackCount (handler st db s m).trace ↔
        (st.ExecContext db s insertSQL [m.ID]).2 = none) ∧
    ackCount (handler st db s m).trace =
        (if (st.ExecContext db s insertSQL [m.ID]).2 = none then 1 else 0) ∧
    ((handler st db s m).flow = .ret () ↔
        (st.ExecContext db s insertSQL [m.ID]).2 = none) ∧
    ((handler st db s m).flow = .exit 1 ↔
        (st.ExecContext db s insertSQL [m.ID]).2 ≠ none) := by
  rcases hx : (st.ExecContext db s insertSQL [m.ID]).2 with _ | err
  · rw [handler_of_ok st db s m hx]
    simp [ackCount]
  · rw [handler_of_error st db s m err hx]
    simp [ackCount]

theorem handler_nackCount {σ : Type} (st : Store σ) (db : DB) (s : σ) (m : Message) :
    nackCount (handler st db s m).trace = 0 := by
  rcases hx : (st.ExecContext db s insertSQL [m.ID]).2 with _ | err
  · rw [handler_of_ok st db s m hx]; simp [nackCount]
  · rw [handler_of_error st db s m err hx]; simp [nackCount]

theorem handler_statements {σ : Type} (st : Store σ) (db : DB) (s : σ) (m : Message) :
    statements (handler st db s m).trace = [(insertSQL, [m.ID])] := by
  rcases hx : (st.ExecContext db s insertSQL [m.ID]).2 with _ | err
  · rw [handler_of_ok st db s m hx]; simp [statements]
  · rw [handler_of_error st db s m err hx]; simp [statements]

theorem tableStore_insert (db : DB) (rows : List String) (v : String) :
    tableStore.ExecContext db (some rows) insertSQL [v] = (some (rows ++ [v]), none) := by
  simp [tableStore, insertSQL, createTableSQL]

theorem tableStore_create (db : DB) (t : Table) :
    tableStore.ExecContext db t createTableSQL [] = (some (rowsOf t), none) := by
  cases t <;> simp [tableStore, rowsOf]

/-! ## C2 -/

/-- C2: for every delivered message the handler sends the store exactly one statement,
the insert into `payment_events`, and its one bound argument is the identifier of the
message, not its payload; for the message with id `evt-123` and data `payload` the bound
value is `evt-123`. -/
theorem handler_inserts_message_id {σ : Type} (st : Store σ) (db : DB) (s : σ)
    (m : Message) :
    statements (handler st db s m).trace =
        [("INSERT INTO payment_events VALUES (?)", [m.ID])] ∧
    statements (handler st db s ⟨"evt-123", "payload"⟩).trace =
        [("INSERT INTO payment_events VALUES (?)", ["evt-123"])] := by
  constructor
  · exact handler_statements st db s m
  · exact handler_statements st db s ⟨"evt-123", "payload"⟩

/-! ## C3 -/

/-- C3: a message with identifier `I` delivered once to the handler, against a table
that holds no row for `I` and appends the bound value on insert, leaves exactly one row
with id `I`, keeps every earlier row (the new table is the old one with the row `I`
appended, so the count of every other id is unchanged), and `Ack` is called once. -/
theorem single_delivery_one_row (db : DB) (rows : List String) (I data : String)
    (hfresh : I ∉ rows) :
    (deliver tableStore db (some rows) [⟨I, data⟩]).store = some (rows ++ [I]) ∧
    (rowsOf (deliver tableStore db (some rows) [⟨I, data⟩]).store).count I = 1 ∧
    (∀ j, j ≠ I →
      (rowsOf (deliver tableStore db (some rows) [⟨I, data⟩]).store).count j =
        rows.count j) ∧
    ackCount (deliver tableStore db (some rows) [⟨I, data⟩]).trace = 1 ∧
    (deliver tableStore db (some rows) [⟨I, data⟩]).flow = .ret () := by
  have hdel : deliver tableStore db (some rows) [⟨I, data⟩] =
      ⟨some (rows ++ [I]),
        [.log (Sprintf "Got message: %s" [data]), .exec db insertSQL [I], .ack I],
        .ret ()⟩ := by
    simp [deliver, handler, tableStore_insert]
  rw [hdel]
  refine ⟨rfl, ?_, ?_, ?_, rfl⟩
  · simp [rowsOf, List.count_eq_zero_of_not_mem hfresh]
  · intro j hj
    simp [rowsOf, List.count_singleton, hj]
  · simp [ackCount]

/-- Witness for C3: the example scenario of the specification on a table holding one
other row. -/
theorem single_delivery_one_row_witness :
    (deliver tableStore localDB (some ["evt-7"]) [⟨"evt-123", "payload"⟩]).store =
        some (["evt-7"] ++ ["evt-123"]) ∧
    (rowsOf (deliver tableStore localDB (some ["evt-7"])
        [⟨"evt-123", "payload"⟩]).store).count "evt-123" = 1 ∧
    (∀ j, j ≠ "evt-123" →
      (rowsOf (deliver tableStore localDB (some ["evt-7"])
          [⟨"evt-123", "payload"⟩]).store).count j = ["evt-7"].count j) ∧
    ackCount (deliver tableStore localDB (some ["evt-7"])
        [⟨"evt-123", "payload"⟩]).trace = 1 ∧
    (deliver tableStore localDB (some ["evt-7"]) [⟨"evt-123", "payload"⟩]).flow = .ret () :=
  single_delivery_one_row localDB ["evt-7"] "evt-123" "payload" (by decide)

theorem deliver_nil {σ : Type} (st : Store σ) (db : DB) (s : σ) :
    deliver st db s [] = ⟨s, [], .ret ()⟩ := rfl

theorem deliver_cons_ok {σ : Type} (st : Store σ) (db : DB) (s : σ) (m : Message)
    (ms : List Message) (h : (st.ExecContext db s insertSQL [m.ID]).2 = none) :
    deliver st db s (m :: ms) =
      ⟨(deliver st db (st.ExecContext db s insertSQL [m.ID]).1 ms).store,
        [.log (Sprintf "Got message: %s" [m.Data]), .exec db insertSQL [m.ID], .ack m.ID] ++
          (deliver st db (st.ExecContext db s insertSQL [m.ID]).1 ms).trace,
        (deliver st db (st.ExecContext db s insertSQL [m.ID]).1 ms).flow⟩ := by
  rw [deliver, handler_of_ok st db s m h]

theorem deliver_cons_error {σ : Type} (st : Store σ) (db : DB) (s : σ) (m : Message)
    (ms : List Message) (err : GoError)
    (h : (st.ExecContext db s insertSQL [m.ID]).2 = some err) :
    deliver st db s (m :: ms) =
      ⟨(st.ExecContext db s insertSQL [m.ID]).1,
        [.log (Sprintf "Got message: %s" [m.Data]), .exec db insertSQL [m.ID],
          .log err.Error],
        .exit 1⟩ := by
  rw [deliver, handler_of_error st db s m err h]

/-- Delivery of `pre ++ post` when every message of `pre` is handled without exit: the
run continues with `post` from the state `pre` leaves. -/
theorem deliver_append {σ : Type} (st : Store σ) (db : DB) (pre post : List Message) :
    ∀ s : σ, (deliver st db s pre).flow = .ret () →
      deliver st db s (pre ++ post) =
        ⟨(deliver st db (deliver st db s pre).store post).store,
          (deliver st db s pre).trace ++
            (deliver st db (deliver st db s pre).store post).trace,
          (deliver st db (deliver st db s pre).store post).flow⟩ := by
  induction pre with
  | nil => intro s _; simp [deliver_nil]
  | cons m ms ih =>
    intro s h
    rcases hx : (st.ExecContext db s insertSQL [m.ID]).2 with _ | err
    · rw [deliver_cons_ok st db s m ms hx] at h
      rw [List.cons_append, deliver_cons_ok st db s m (ms ++ post) hx,
        deliver_cons_ok st db s m ms hx, ih _ h]
      simp
    · rw [deliver_cons_error st db s m ms err hx] at h
      cases h

/-- On the table store every delivery succeeds: `n` deliveries of one message append
`n` rows with its id and acknowledge `n` times. -/
theorem deliver_table_replicate (db : DB) (m : Message) (n : Nat) :
    ∀ rows : List String,
      (deliver tableStore db (some rows) (List.replicate n m)).store =
          some (rows ++ List.replicate n m.ID) ∧
      ackCount (deliver tableStore db (some rows) (List.replicate n m)).trace = n ∧
      (deliver tableStore db (some rows) (List.replicate n m)).flow = .ret () := by
  induction n with
  | zero => intro rows; simp [deliver_nil, ackCount]
  | succ k ih =>
    intro rows
    have hx : (tableStore.ExecContext db (some rows) insertSQL [m.ID]).2 = none := by
      rw [tableStore_insert]
    rw [List.replicate_succ, deliver_cons_ok tableStore db (some rows) m _ hx,
      tableStore_insert]
    obtain ⟨h1, h2, h3⟩ := ih (rows ++ [m.ID])
    refine ⟨?_, ?_, ?_⟩
    · simp [h1, List.replicate_succ]
    · simp only [ackCount] at h2 ⊢
      simp [List.countP_cons, h2]
    · simpa using h3

theorem initDB_table (env : Env) (pf : Platform) (t : Table)
    (hopen : pf.sqlOpen "postgres" (psqlInfo env) = none) :
    initDB env pf tableStore t =
      ⟨some (rowsOf t),
        [.sqlOpen "postgres" (psqlInfo env), .ping (handleOf env),
          .exec (handleOf env) createTableSQL [], .log "Successfully connected to DB!"],
        .ret (some (handleOf env), none)⟩ := by
  simp only [initDB, hopen, tableStore_create, handleOf]
  simp [tableStore]

/-! ## C4 -/

/-- C4 fails as stated: on the table `initDB` creates (one text column, no key), two
deliveries of the message with id `evt-123` leave two rows with that id, not one, and
the store state differs from the state after a single delivery. -/
theorem redelivery_duplicates_row :
    (initDB [] (scripted [evt123, evt123] none) tableStore none).store = some [] ∧
    (rowsOf (deliver tableStore localDB
        (initDB [] (scripted [evt123, evt123] none) tableStore none).store
        (List.replicate 2 evt123)).store).count "evt-123" = 2 ∧
    ¬ (rowsOf (deliver tableStore localDB
        (initDB [] (scripted [evt123, evt123] none) tableStore none).store
        (List.replicate 2 evt123)).store).count "evt-123" = 1 ∧
    (deliver tableStore localDB
        (initDB [] (scripted [evt123, evt123] none) tableStore none).store
        (List.replicate 2 evt123)).store ≠
      (deliver tableStore localDB
        (initDB [] (scripted [evt123, evt123] none) tableStore none).store
        (List.replicate 1 evt123)).store ∧
    (main [] (scripted [evt123, evt123] none) tableStore none).store =
      some ["evt-123", "evt-123"] := by
  decide

/-- C4 as amended: after `N` deliveries of the message with identifier `I`, each insert
succeeding against the table created by `initDB` and starting with no row for `I`,
exactly `N` rows with id `I` exist (the table is the earlier one with `N` copies of `I`
appended), so exactly one row exists only when `N = 1`; every delivery is
acknowledged. -/
theorem redelivery_appends_each_time (env : Env) (pf : Platform) (t : Table)
    (I data : String) (N : Nat)
    (hopen : pf.sqlOpen "postgres" (psqlInfo env) = none) (hfresh : I ∉ rowsOf t) :
    (deliver tableStore (handleOf env) (initDB env pf tableStore t).store
        (List.replicate N ⟨I, data⟩)).store = some (rowsOf t ++ List.replicate N I) ∧
    (rowsOf (deliver tableStore (handleOf env) (initDB env pf tableStore t).store
        (List.replicate N ⟨I, data⟩)).store).count I = N ∧
    ((rowsOf (deliver tableStore (handleOf env) (initDB env pf tableStore t).store
        (List.replicate N ⟨I, data⟩)).store).count I = 1 ↔ N = 1) ∧
    ackCount (deliver tableStore (handleOf env) (initDB env pf tableStore t).store
        (List.replicate N ⟨I, data⟩)).trace = N ∧
    (deliver tableStore (handleOf env) (initDB env pf tableStore t).store
        (List.replicate N ⟨I, data⟩)).flow = .ret () := by
  rw [initDB_table env pf t hopen]
  obtain ⟨h1, h2, h3⟩ := deliver_table_replicate (handleOf env) ⟨I, data⟩ N (rowsOf t)
  have hcount : (rowsOf t ++ List.replicate N I).count I = N := by
    simp [List.count_eq_zero_of_not_mem hfresh]
  have hrows : rowsOf (some (rowsOf t ++ List.replicate N I)) =
      rowsOf t ++ List.replicate N I := rfl
  simp only at h1 h2 h3
  rw [h1, hrows, hcount]
  exact ⟨rfl, rfl, Iff.rfl, h2, h3⟩

/-- Witness for C4 as amended: three deliveries of `evt-123` on a missing table. -/
theorem redelivery_appends_each_time_witness :
    (deliver tableStore (handleOf []) (initDB [] (scripted [] none) tableStore none).store
        (List.replicate 3 ⟨"evt-123", "payload"⟩)).store =
      some (rowsOf none ++ List.replicate 3 "evt-123") ∧
    (rowsOf (deliver tableStore (handleOf []) (initDB [] (scripted [] none) tableStore none).store
        (List.replicate 3 ⟨"evt-123", "payload"⟩)).store).count "evt-123" = 3 ∧
    ((rowsOf (deliver tableStore (handleOf []) (initDB [] (scripted [] none) tableStore none).store
        (List.replicate 3 ⟨"evt-123", "payload"⟩)).store).count "evt-123" = 1 ↔ 3 = 1) ∧
    ackCount (deliver tableStore (handleOf []) (initDB [] (scripted [] none) tableStore none).store
        (List.replicate 3 ⟨"evt-123", "payload"⟩)).trace = 3 ∧
    (deliver tableStore (handleOf []) (initDB [] (scripted [] none) tableStore none).store
        (List.replicate 3 ⟨"evt-123", "payload"⟩)).flow = .ret () :=
  redelivery_appends_each_time [] (scripted [] none) none "evt-123" "payload" 3 rfl
    (by decide)

theorem Errorf_unwrap (format : String) (err : GoError) :
    (Errorf format err).Unwrap = some err := rfl

theorem Errorf_receive_message (err : GoError) :
    (Errorf "failed receiving from pubsub: %w" err).Error =
      "failed receiving from pubsub: " ++ err.Error := by
  apply String.ext
  simp [Errorf, GoError.Error, Sprintf, formatChars, String.data_append]

theorem consume_of_exit {σ : Type} (pf : Platform) (st : Store σ) (sub : Subscription)
    (db : DB) (s : σ) (code : Nat)
    (h : (deliver st db s (pf.Receive sub).1).flow = .exit code) :
    consumePaymentEvents pf st sub db s =
      ⟨(deliver st db s (pf.Receive sub).1).store,
        .receive sub :: (deliver st db s (pf.Receive sub).1).trace, .exit code⟩ := by
  simp only [consumePaymentEvents, h]

theorem consume_of_error {σ : Type} (pf : Platform) (st : Store σ) (sub : Subscription)
    (db : DB) (s : σ) (err : GoError)
    (h : (deliver st db s (pf.Receive sub).1).flow = .ret ())
    (hr : (pf.Receive sub).2 = some err) :
    consumePaymentEvents pf st sub db s =
      ⟨(deliver st db s (pf.Receive sub).1).store,
        .receive sub :: (deliver st db s (pf.Receive sub).1).trace,
        .ret (some (Errorf "failed receiving from pubsub: %w" err))⟩ := by
  simp only [consumePaymentEvents, h, hr]

theorem consume_of_nil {σ : Type} (pf : Platform) (st : Store σ) (sub : Subscription)
    (db : DB) (s : σ)
    (h : (deliver st db s (pf.Receive sub).1).flow = .ret ())
    (hr : (pf.Receive sub).2 = none) :
    consumePaymentEvents pf st sub db s =
      ⟨(deliver st db s (pf.Receive sub).1).store,
        .receive sub :: (deliver st db s (pf.Receive sub).1).trace ++
          [.log "done listening to pubsub"],
        .ret none⟩ := by
  simp only [consumePaymentEvents, h, hr]

/-! ## C5 -/

/-- C5: when `Receive` returns (no handler exited the process), `consumePaymentEvents`
returns, and it returns `nil` exactly when `Receive` returned `nil`; for a non-nil result
`e` of `Receive` it returns a non-nil error that unwraps to `e` and whose message is
`failed receiving from pubsub: ` followed by the message of `e`. -/
theorem consumePaymentEvents_result {σ : Type} (pf : Platform) (st : Store σ)
    (sub : Subscription) (db : DB) (s : σ)
    (hreturns : (deliver st db s (pf.Receive sub).1).flow = .ret ()) :
    ((consumePaymentEvents pf st sub db s).flow = .ret none ↔ (pf.Receive sub).2 = none) ∧
    (∀ e, (pf.Receive sub).2 = some e →
      ∃ err, (consumePaymentEvents pf st sub db s).flow = .ret (some err) ∧
        err.Unwrap = some e ∧
        err.Error = "failed receiving from pubsub: " ++ e.Error) ∧
    (∃ res, (consumePaymentEvents pf st sub db s).flow = .ret res) := by
  rcases hr : (pf.Receive sub).2 with _ | e0
  · rw [consume_of_nil pf st sub db s hreturns hr]
    simp
  · rw [consume_of_error pf st sub db s e0 hreturns hr]
    refine ⟨by simp, ?_, ⟨_, rfl⟩⟩
    intro e he
    cases he
    exact ⟨_, rfl, Errorf_unwrap _ _, Errorf_receive_message _⟩

/-- Witness for C5: one message is stored and acknowledged, then `Receive` returns the
error `rpc error`. -/
theorem consumePaymentEvents_result_witness :
    ((consumePaymentEvents (scripted [evt123] (some (.base "rpc error"))) tableStore
        (subscriptionOf []) localDB (some [])).flow = .ret none ↔
      ((scripted [evt123] (some (.base "rpc error"))).Receive (subscriptionOf [])).2 = none) ∧
    (∀ e, ((scripted [evt123] (some (.base "rpc error"))).Receive (subscriptionOf [])).2 =
        some e →
      ∃ err, (consumePaymentEvents (scripted [evt123] (some (.base "rpc error"))) tableStore
          (subscriptionOf []) localDB (some [])).flow = .ret (some err) ∧
        err.Unwrap = some e ∧
        err.Error = "failed receiving from pubsub: " ++ e.Error) ∧
    (∃ res, (consumePaymentEvents (scripted [evt123] (some (.base "rpc error"))) tableStore
        (subscriptionOf []) localDB (some [])).flow = .ret res) :=
  consumePaymentEvents_result (scripted [evt123] (some (.base "rpc error"))) tableStore
    (subscriptionOf []) localDB (some []) (by decide)

/-! ## Startup -/

theorem initDB_open_error {σ : Type} (env : Env) (pf : Platform) (st : Store σ) (s : σ)
    (e : GoError) (hopen : pf.sqlOpen "postgres" (psqlInfo env) = some e) :
    initDB env pf st s =
      ⟨s, [.sqlOpen "postgres" (psqlInfo env)],
        .ret (none, some (Errorf "failed opening sql conn: %w" e))⟩ := by
  simp only [initDB, hopen]

theorem initDB_ping_error {σ : Type} (env : Env) (pf : Platform) (st : Store σ) (s : σ)
    (e : GoError) (hopen : pf.sqlOpen "postgres" (psqlInfo env) = none)
    (hping : st.PingContext (handleOf env) s = some e) :
    initDB env pf st s =
      ⟨s, [.sqlOpen "postgres" (psqlInfo env), .ping (handleOf env)],
        .ret (none, some (Errorf "failed pinging DB: %w" e))⟩ := by
  unfold handleOf at hping
  simp only [initDB, hopen, hping, handleOf]

theorem initDB_create_error {σ : Type} (env : Env) (pf : Platform) (st : Store σ) (s : σ)
    (e : GoError) (hopen : pf.sqlOpen "postgres" (psqlInfo env) = none)
    (hping : st.PingContext (handleOf env) s = none)
    (hcreate : (st.ExecContext (handleOf env) s createTableSQL []).2 = some e) :
    initDB env pf st s =
      ⟨(st.ExecContext (handleOf env) s createTableSQL []).1,
        [.sqlOpen "postgres" (psqlInfo env), .ping (handleOf env),
          .exec (handleOf env) createTableSQL []],
        .ret (none, some (Errorf "failed creating paymen events table: %w" e))⟩ := by
  unfold handleOf at hping hcreate ⊢
  rcases hx : st.ExecContext ⟨"postgres", psqlInfo env⟩ s createTableSQL [] with ⟨s1, r⟩
  rw [hx] at hcreate
  simp only at hcreate
  subst hcreate
  simp only [initDB, hopen, hping, hx]

theorem initDB_ok {σ : Type} (env : Env) (pf : Platform) (st : Store σ) (s : σ)
    (hopen : pf.sqlOpen "postgres" (psqlInfo env) = none)
    (hping : st.PingContext (handleOf env) s = none)
    (hcreate : (st.ExecContext (handleOf env) s createTableSQL []).2 = none) :
    initDB env pf st s =
      ⟨(st.ExecContext (handleOf env) s createTableSQL []).1,
        [.sqlOpen "postgres" (psqlInfo env), .ping (handleOf env),
          .exec (handleOf env) createTableSQL [], .log "Successfully connected to DB!"],
        .ret (some (handleOf env), none)⟩ := by
  unfold handleOf at hping hcreate ⊢
  rcases hx : st.ExecContext ⟨"postgres", psqlInfo env⟩ s createTableSQL [] with ⟨s1, r⟩
  rw [hx] at hcreate
  simp only at hcreate
  subst hcreate
  simp only [initDB, hopen, hping, hx]

theorem main_of_init_error {σ : Type} (env : Env) (pf : Platform) (st : Store σ) (s : σ)
    (h : Option DB) (err : GoError) (hinit : (initDB env pf st s).flow = .ret (h, some err)) :
    main env pf st s =
      ⟨(initDB env pf st s).store,
        .log "starting server..." :: (initDB env pf st s).trace ++ [.log err.Error], 1⟩ := by
  simp only [main, hinit]

theorem main_of_client_error {σ : Type} (env : Env) (pf : Platform) (st : Store σ) (s : σ)
    (db : DB) (err : GoError) (hinit : (initDB env pf st s).flow = .ret (some db, none))
    (hclient : pf.NewClient (Getenv env "GCP_PROJECT") = some err) :
    main env pf st s =
      ⟨(initDB env pf st s).store,
        .log "starting server..." :: (initDB env pf st s).trace ++
          [.newClient (Getenv env "GCP_PROJECT"),
           .log (Sprintf "failed creating pubsub client: %v" [err.Error])], 1⟩ := by
  simp only [main, hinit, hclient]

/-- The effects of `main` up to the call of `consumePaymentEvents`. -/
theorem main_of_consume {σ : Type} (env : Env) (pf : Platform) (st : Store σ) (s : σ)
    (db : DB) (hinit : (initDB env pf st s).flow = .ret (some db, none))
    (hclient : pf.NewClient (Getenv env "GCP_PROJECT") = none) :
    main env pf st s =
      match (consumePaymentEvents pf st (subscriptionOf env) db
          (initDB env pf st s).store).flow with
      | .exit code =>
        ⟨(consumePaymentEvents pf st (subscriptionOf env) db (initDB env pf st s).store).store,
          (.log "starting server..." :: (initDB env pf st s).trace ++
            [.newClient (Getenv env "GCP_PROJECT"),
             .log (Sprintf "starting to consume pubsub subscription %v in project %v..."
                [pf.subscriptionString (subscriptionOf env), Getenv env "GCP_PROJECT"])]) ++
            (consumePaymentEvents pf st (subscriptionOf env) db
              (initDB env pf st s).store).trace, code⟩
      | .ret (some err) =>
        ⟨(consumePaymentEvents pf st (subscriptionOf env) db (initDB env pf st s).store).store,
          (.log "starting server..." :: (initDB env pf st s).trace ++
            [.newClient (Getenv env "GCP_PROJECT"),
             .log (Sprintf "starting to consume pubsub subscription %v in project %v..."
                [pf.subscriptionString (subscriptionOf env), Getenv env "GCP_PROJECT"])]) ++
            (consumePaymentEvents pf st (subscriptionOf env) db
              (initDB env pf st s).store).trace ++ [.log err.Error], 1⟩
      | .ret none =>
        ⟨(consumePaymentEvents pf st (subscriptionOf env) db (initDB env pf st s).store).store,
          (.log "starting server..." :: (initDB env pf st s).trace ++
            [.newClient (Getenv env "GCP_PROJECT"),
             .log (Sprintf "starting to consume pubsub subscription %v in project %v..."
                [pf.subscriptionString (subscriptionOf env), Getenv env "GCP_PROJECT"])]) ++
            (consumePaymentEvents pf st (subscriptionOf env) db
              (initDB env pf st s).store).trace ++
            [.close db, .cancel, .log "going down. bye!"], 0⟩ := by
  simp only [main, hinit, hclient, subscriptionOf]

theorem consume_trace_head {σ : Type} (pf : Platform) (st : Store σ) (sub : Subscription)
    (db : DB) (s : σ) :
    ∃ rest, (consumePaymentEvents pf st sub db s).trace = .receive sub :: rest := by
  rcases hf : (deliver st db s (pf.Receive sub).1).flow with ⟨⟨⟩⟩ | code
  · rcases hr : (pf.Receive sub).2 with _ | e
    · rw [consume_of_nil pf st sub db s hf hr]; exact ⟨_, rfl⟩
    · rw [consume_of_error pf st sub db s e hf hr]; exact ⟨_, rfl⟩
  · rw [consume_of_exit pf st sub db s code hf]; exact ⟨_, rfl⟩

/-! ## C6 -/

/-- C6: `initDB` performs open, ping and create-table in that order: when the three
succeed its trace is exactly open, ping, create-table and the success log line, the
table statement has been executed on the store, and it returns the handle with a nil
error; at the first step that fails it returns a nil handle with the wrapped error and
its trace stops at that step, no later step being run; the handle is returned only when
all three succeeded.  Whenever `initDB` returns an error, `main` logs it and exits with
status 1 without creating the pub/sub client or calling `Receive`, so no message is
handled. -/
theorem initDB_fail_fast {σ : Type} (env : Env) (pf : Platform) (st : Store σ) (s : σ) :
    (initDB env pf st s).trace <+:
      [.sqlOpen "postgres" (psqlInfo env), .ping (handleOf env),
        .exec (handleOf env) createTableSQL [], .log "Successfully connected to DB!"] ∧
    (pf.sqlOpen "postgres" (psqlInfo env) = none →
      st.PingContext (handleOf env) s = none →
      (st.ExecContext (handleOf env) s createTableSQL []).2 = none →
      (initDB env pf st s).trace =
        [.sqlOpen "postgres" (psqlInfo env), .ping (handleOf env),
          .exec (handleOf env) createTableSQL [], .log "Successfully connected to DB!"] ∧
      (initDB env pf st s).flow = .ret (some (handleOf env), none) ∧
      (initDB env pf st s).store = (st.ExecContext (handleOf env) s createTableSQL []).1) ∧
    (∀ e, pf.sqlOpen "postgres" (psqlInfo env) = some e →
      (initDB env pf st s).trace = [.sqlOpen "postgres" (psqlInfo env)] ∧
      (initDB env pf st s).flow =
        .ret (none, some (Errorf "failed opening sql conn: %w" e)) ∧
      (initDB env pf st s).store = s) ∧
    (∀ e, pf.sqlOpen "postgres" (psqlInfo env) = none →
      st.PingContext (handleOf env) s = some e →
      (initDB env pf st s).trace =
        [.sqlOpen "postgres" (psqlInfo env), .ping (handleOf env)] ∧
      (initDB env pf st s).flow = .ret (none, some (Errorf "failed pinging DB: %w" e)) ∧
      (initDB env pf st s).store = s) ∧
    (∀ e, pf.sqlOpen "postgres" (psqlInfo env) = none →
      st.PingContext (handleOf env) s = none →
      (st.ExecContext (handleOf env) s createTableSQL []).2 = some e →
      (initDB env pf st s).trace =
        [.sqlOpen "postgres" (psqlInfo env), .ping (handleOf env),
          .exec (handleOf env) createTableSQL []] ∧
      (initDB env pf st s).flow =
        .ret (none, some (Errorf "failed creating paymen events table: %w" e)) ∧
      (initDB env pf st s).store = (st.ExecContext (handleOf env) s createTableSQL []).1) ∧
    ((∃ db, (initDB env pf st s).flow = .ret (some db, none)) ↔
      (pf.sqlOpen "postgres" (psqlInfo env) = none ∧
        st.PingContext (handleOf env) s = none ∧
        (st.ExecContext (handleOf env) s createTableSQL []).2 = none)) ∧
    (∃ h err, (initDB env pf st s).flow = .ret (h, err) ∧ (h = none ↔ err ≠ none)) ∧
    (∀ h err, (initDB env pf st s).flow = .ret (h, some err) →
      h = none ∧
      (main env pf st s).status = 1 ∧
      (main env pf st s).store = (initDB env pf st s).store ∧
      (main env pf st s).trace =
        .log "starting server..." :: (initDB env pf st s).trace ++ [.log err.Error] ∧
      createsClient (main env pf st s).trace = false ∧
      receives (main env pf st s).trace = false ∧
      ackCount (main env pf st s).trace = 0 ∧
      statements (main env pf st s).trace ⊆ [(createTableSQL, [])]) := by
  rcases hopen : pf.sqlOpen "postgres" (psqlInfo env) with _ | e1
  · rcases hping : st.PingContext (handleOf env) s with _ | e2
    · rcases hcreate : (st.ExecContext (handleOf env) s createTableSQL []).2 with _ | e3
      · have hi := initDB_ok env pf st s hopen hping hcreate
        refine ⟨by rw [hi], ?_, by simp, by simp, by simp, ?_, ?_, ?_⟩
        · intro _ _ _; rw [hi]; exact ⟨rfl, rfl, rfl⟩
        · rw [hi]; simp
        · rw [hi]; exact ⟨_, _, rfl, by simp⟩
        · intro h err hf
          rw [hi] at hf
          simp at hf
      · have hi := initDB_create_error env pf st s e3 hopen hping hcreate
        refine ⟨?_, by simp, by simp, by simp, ?_, ?_, ?_, ?_⟩
        · rw [hi]; exact ⟨[.log "Successfully connected to DB!"], rfl⟩
        · intro e _ _ he; cases he; rw [hi]; exact ⟨rfl, rfl, rfl⟩
        · rw [hi]; simp
        · rw [hi]; exact ⟨_, _, rfl, by simp⟩
        · intro h err hf
          rw [main_of_init_error env pf st s h err hf]
          rw [hi] at hf ⊢
          simp only [Flow.ret.injEq, Prod.mk.injEq] at hf
          refine ⟨hf.1.symm, rfl, rfl, rfl, ?_, ?_, ?_, ?_⟩ <;>
            simp [createsClient, receives, ackCount, statements]
    · have hi := initDB_ping_error env pf st s e2 hopen hping
      refine ⟨?_, by simp, by simp, ?_, by simp, ?_, ?_, ?_⟩
      · rw [hi]
        exact ⟨[.exec (handleOf env) createTableSQL [],
          .log "Successfully connected to DB!"], rfl⟩
      · intro e _ he; cases he; rw [hi]; exact ⟨rfl, rfl, rfl⟩
      · rw [hi]; simp
      · rw [hi]; exact ⟨_, _, rfl, by simp⟩
      · intro h err hf
        rw [main_of_init_error env pf st s h err hf]
        rw [hi] at hf ⊢
        simp only [Flow.ret.injEq, Prod.mk.injEq] at hf
        refine ⟨hf.1.symm, rfl, rfl, rfl, ?_, ?_, ?_, ?_⟩ <;>
          simp [createsClient, receives, ackCount, statements]
  · have hi := initDB_open_error env pf st s e1 hopen
    refine ⟨?_, by simp, ?_, by simp, by simp, ?_, ?_, ?_⟩
    · rw [hi]
      exact ⟨[.ping (handleOf env), .exec (handleOf env) createTableSQL [],
        .log "Successfully connected to DB!"], rfl⟩
    · intro e he; cases he; rw [hi]; exact ⟨rfl, rfl, rfl⟩
    · rw [hi]; simp
    · rw [hi]; exact ⟨_, _, rfl, by simp⟩
    · intro h err hf
      rw [main_of_init_error env pf st s h err hf]
      rw [hi] at hf ⊢
      simp only [Flow.ret.injEq, Prod.mk.injEq] at hf
      refine ⟨hf.1.symm, rfl, rfl, rfl, ?_, ?_, ?_, ?_⟩ <;>
        simp [createsClient, receives, ackCount, statements]

/-- Witness for C6: on a reachable store with no table, `initDB` runs the three steps,
creates the empty table and returns the handle; on a store that cannot be pinged it
stops after the ping and `main` exits with status 1 before any pub/sub call. -/
theorem initDB_fail_fast_witness :
    ((initDB fullEnv (scripted [evt123] none) tableStore none).trace =
        [.sqlOpen "postgres" (psqlInfo fullEnv), .ping (handleOf fullEnv),
          .exec (handleOf fullEnv) createTableSQL [],
          .log "Successfully connected to DB!"] ∧
      (initDB fullEnv (scripted [evt123] none) tableStore none).flow =
        .ret (some (handleOf fullEnv), none) ∧
      (initDB fullEnv (scripted [evt123] none) tableStore none).store =
        (tableStore.ExecContext (handleOf fullEnv) none createTableSQL []).1) ∧
    ((initDB fullEnv (scripted [evt123] none) unreachable none).trace =
        [.sqlOpen "postgres" (psqlInfo fullEnv), .ping (handleOf fullEnv)] ∧
      (initDB fullEnv (scripted [evt123] none) unreachable none).flow =
        .ret (none, some (Errorf "failed pinging DB: %w"
          (.base "dial tcp: connection refused"))) ∧
      (initDB fullEnv (scripted [evt123] none) unreachable none).store = none) ∧
    (main fullEnv (scripted [evt123] none) unreachable none).status = 1 ∧
    receives (main fullEnv (scripted [evt123] none) unreachable none).trace = false :=
  ⟨(initDB_fail_fast fullEnv (scripted [evt123] none) tableStore none).2.1
      rfl rfl (by decide),
    (initDB_fail_fast fullEnv (scripted [evt123] none) unreachable none).2.2.2.1
      (.base "dial tcp: connection refused") rfl rfl,
    ((initDB_fail_fast fullEnv (scripted [evt123] none) unreachable none).2.2.2.2.2.2.2
      none (Errorf "failed pinging DB: %w" (.base "dial tcp: connection refused")) rfl).2.1,
    ((initDB_fail_fast fullEnv (scripted [evt123] none) unreachable none).2.2.2.2.2.2.2
      none (Errorf "failed pinging DB: %w" (.base "dial tcp: connection refused"))
      rfl).2.2.2.2.2.1⟩

/-- A delivery run that exits the process does so with status 1. -/
theorem deliver_exit_code {σ : Type} (st : Store σ) (db : DB) (ms : List Message) :
    ∀ (s : σ) (code : Nat), (deliver st db s ms).flow = .exit code → code = 1 := by
  induction ms with
  | nil => intro s code h; simp [deliver_nil] at h
  | cons m ms ih =>
    intro s code h
    rcases hx : (st.ExecContext db s insertSQL [m.ID]).2 with _ | err
    · rw [deliver_cons_ok st db s m ms hx] at h
      exact ih _ code h
    · rw [deliver_cons_error st db s m ms err hx] at h
      simp only [Flow.exit.injEq] at h
      exact h.symm

theorem initDB_flow_ok {σ : Type} (env : Env) (pf : Platform) (st : Store σ) (s : σ)
    (db : DB) (hinit : (initDB env pf st s).flow = .ret (some db, none)) :
    db = handleOf env ∧ pf.sqlOpen "postgres" (psqlInfo env) = none ∧
      st.PingContext (handleOf env) s = none ∧
      (st.ExecContext (handleOf env) s createTableSQL []).2 = none := by
  rcases hopen : pf.sqlOpen "postgres" (psqlInfo env) with _ | e1
  · rcases hping : st.PingContext (handleOf env) s with _ | e2
    · rcases hcreate : (st.ExecContext (handleOf env) s createTableSQL []).2 with _ | e3
      · rw [initDB_ok env pf st s hopen hping hcreate] at hinit
        simp only [Flow.ret.injEq, Prod.mk.injEq, Option.some.injEq, and_true] at hinit
        exact ⟨hinit.symm, rfl, rfl, rfl⟩
      · rw [initDB_create_error env pf st s e3 hopen hping hcreate] at hinit
        simp at hinit
    · rw [initDB_ping_error env pf st s e2 hopen hping] at hinit
      simp at hinit
  · rw [initDB_open_error env pf st s e1 hopen] at hinit
    simp at hinit

/-! ## C7 -/

/-- C7: the exit status of `main` is non-zero (it is 1) whenever `initDB` returns an
error, the pub/sub client cannot be created, or `consumePaymentEvents` returns an error,
and it is zero when `consumePaymentEvents` returns `nil`, which is when `Receive` ends
cleanly; a status of zero is reached in no other way. -/
theorem main_exit_status {σ : Type} (env : Env) (pf : Platform) (st : Store σ) (s : σ) :
    (∀ h err, (initDB env pf st s).flow = .ret (h, some err) →
      (main env pf st s).status = 1) ∧
    (∀ db err, (initDB env pf st s).flow = .ret (some db, none) →
      pf.NewClient (Getenv env "GCP_PROJECT") = some err →
      (main env pf st s).status = 1) ∧
    (∀ db err, (initDB env pf st s).flow = .ret (some db, none) →
      pf.NewClient (Getenv env "GCP_PROJECT") = none →
      (consumePaymentEvents pf st (subscriptionOf env) db (initDB env pf st s).store).flow =
        .ret (some err) →
      (main env pf st s).status = 1) ∧
    (∀ db, (initDB env pf st s).flow = .ret (some db, none) →
      pf.NewClient (Getenv env "GCP_PROJECT") = none →
      (consumePaymentEvents pf st (subscriptionOf env) db (initDB env pf st s).store).flow =
        .ret none →
      (main env pf st s).status = 0) ∧
    ((main env pf st s).status = 0 ↔
      pf.sqlOpen "postgres" (psqlInfo env) = none ∧
      st.PingContext (handleOf env) s = none ∧
      (st.ExecContext (handleOf env) s createTableSQL []).2 = none ∧
      pf.NewClient (Getenv env "GCP_PROJECT") = none ∧
      (deliver st (handleOf env) (st.ExecContext (handleOf env) s createTableSQL []).1
        (pf.Receive (subscriptionOf env)).1).flow = .ret () ∧
      (pf.Receive (subscriptionOf env)).2 = none) := by
  refine ⟨?_, ?_, ?_, ?_, ?_⟩
  · intro h err hinit
    rw [main_of_init_error env pf st s h err hinit]
  · intro db err hinit hclient
    rw [main_of_client_error env pf st s db err hinit hclient]
  · intro db err hinit hclient hcons
    rw [main_of_consume env pf st s db hinit hclient, hcons]
  · intro db hinit hclient hcons
    rw [main_of_consume env pf st s db hinit hclient, hcons]
  · rcases hopen : pf.sqlOpen "postgres" (psqlInfo env) with _ | e1
    · rcases hping : st.PingContext (handleOf env) s with _ | e2
      · rcases hcreate : (st.ExecContext (handleOf env) s createTableSQL []).2 with _ | e3
        · have hi := initDB_ok env pf st s hopen hping hcreate
          have hflow : (initDB env pf st s).flow = .ret (some (handleOf env), none) := by
            rw [hi]
          have hstore : (initDB env pf st s).store =
              (st.ExecContext (handleOf env) s createTableSQL []).1 := by rw [hi]
          rcases hclient : pf.NewClient (Getenv env "GCP_PROJECT") with _ | e4
          · rw [main_of_consume env pf st s _ hflow hclient, hstore]
            rcases hd : (deliver st (handleOf env)
                (st.ExecContext (handleOf env) s createTableSQL []).1
                (pf.Receive (subscriptionOf env)).1).flow with ⟨⟨⟩⟩ | code
            · rcases hr : (pf.Receive (subscriptionOf env)).2 with _ | e5
              · rw [consume_of_nil pf st _ _ _ hd hr]
                simp
              · rw [consume_of_error pf st _ _ _ e5 hd hr]
                simp
            · rw [consume_of_exit pf st _ _ _ code hd]
              have := deliver_exit_code st _ _ _ code hd
              subst this
              simp
          · rw [main_of_client_error env pf st s _ e4 hflow hclient]
            simp
        · rw [main_of_init_error env pf st s none _
            (by rw [initDB_create_error env pf st s e3 hopen hping hcreate])]
          simp
      · rw [main_of_init_error env pf st s none _
          (by rw [initDB_ping_error env pf st s e2 hopen hping])]
        simp
    · rw [main_of_init_error env pf st s none _
        (by rw [initDB_open_error env pf st s e1 hopen])]
      simp

/-- Witness for C7: with every variable set, a reachable store and a `Receive` that
handles one message and ends cleanly, the process exits with status 0. -/
theorem main_exit_status_witness :
    (main fullEnv (scripted [evt123] none) tableStore none).status = 0 :=
  (main_exit_status fullEnv (scripted [evt123] none) tableStore none).2.2.2.1
    (handleOf fullEnv) (by decide) rfl (by decide)

theorem receives_append (a b : List Effect) :
    receives (a ++ b) = (receives a || receives b) := by
  simp [receives, List.any_append]

theorem receives_consume {σ : Type} (pf : Platform) (st : Store σ) (sub : Subscription)
    (db : DB) (s : σ) : receives (consumePaymentEvents pf st sub db s).trace = true := by
  obtain ⟨rest, h⟩ := consume_trace_head pf st sub db s
  rw [h]
  simp [receives]

theorem Getenv_of_not_set (env : Env) (key : String) (h : isSet env key = false) :
    Getenv env key = "" := by
  unfold isSet at h
  unfold Getenv
  cases hl : env.lookup key with
  | none => rfl
  | some v => rw [hl] at h; simp at h

/-! ## C8 -/

/-- C8 fails as stated: in the empty environment, where every configuration variable is
absent, a store and a transport that answer without error let `main` call `Receive`,
handle and acknowledge the delivered message, and exit with status 0. -/
theorem absent_configuration_not_fatal :
    isSet [] "GCP_PROJECT" = false ∧ isSet [] "PAYMENT_SUBSCRIPTION" = false ∧
    isSet [] "PG_HOST" = false ∧ isSet [] "PG_USER" = false ∧
    (main [] (scripted [evt123] none) tableStore none).status = 0 ∧
    receives (main [] (scripted [evt123] none) tableStore none).trace = true ∧
    ackCount (main [] (scripted [evt123] none) tableStore none).trace = 1 ∧
    (main [] (scripted [evt123] none) tableStore none).store = some ["evt-123"] := by
  decide

/-- C8 as amended: the program does not check that a configuration variable is set; an
absent variable is read as the empty string, and for every environment startup ends in
a fatal error (`main` exits with status 1 and never calls `Receive`) exactly when
`sql.Open`, the ping, the create-table statement or the creation of the pub/sub client
returns an error for the values read; when the four succeed `main` calls `Receive`. -/
theorem startup_fatal_iff_step_fails {σ : Type} (env : Env) (pf : Platform) (st : Store σ)
    (s : σ) :
    (∀ key, isSet env key = false → Getenv env key = "") ∧
    (receives (main env pf st s).trace = true ↔
      pf.sqlOpen "postgres" (psqlInfo env) = none ∧
      st.PingContext (handleOf env) s = none ∧
      (st.ExecContext (handleOf env) s createTableSQL []).2 = none ∧
      pf.NewClient (Getenv env "GCP_PROJECT") = none) ∧
    (receives (main env pf st s).trace = false → (main env pf st s).status = 1) := by
  refine ⟨fun key h => Getenv_of_not_set env key h, ?_⟩
  rcases hopen : pf.sqlOpen "postgres" (psqlInfo env) with _ | e1
  · rcases hping : st.PingContext (handleOf env) s with _ | e2
    · rcases hcreate : (st.ExecContext (handleOf env) s createTableSQL []).2 with _ | e3
      · have hi := initDB_ok env pf st s hopen hping hcreate
        have hflow : (initDB env pf st s).flow = .ret (some (handleOf env), none) := by
          rw [hi]
        rcases hclient : pf.NewClient (Getenv env "GCP_PROJECT") with _ | e4
        · have hrec : receives (main env pf st s).trace = true := by
            rw [main_of_consume env pf st s _ hflow hclient]
            rcases hc : (consumePaymentEvents pf st (subscriptionOf env) (handleOf env)
                (initDB env pf st s).store).flow with (_ | err) | code
            · simp only [receives_append, receives_consume, Bool.or_true, Bool.true_or]
            · simp only [receives_append, receives_consume, Bool.or_true, Bool.true_or]
            · simp only [receives_append, receives_consume, Bool.or_true, Bool.true_or]
          rw [hrec]
          simp
        · rw [main_of_client_error env pf st s _ e4 hflow hclient, hi]
          simp [receives]
      · rw [main_of_init_error env pf st s none _
          (by rw [initDB_create_error env pf st s e3 hopen hping hcreate]),
          initDB_create_error env pf st s e3 hopen hping hcreate]
        simp [receives]
    · rw [main_of_init_error env pf st s none _
        (by rw [initDB_ping_error env pf st s e2 hopen hping]),
        initDB_ping_error env pf st s e2 hopen hping]
      simp [receives]
  · rw [main_of_init_error env pf st s none _
      (by rw [initDB_open_error env pf st s e1 hopen]),
      initDB_open_error env pf st s e1 hopen]
    simp [receives]

/-- Witness for C8 as amended: in the empty environment the store cannot be pinged, so
`main` exits with status 1 without calling `Receive`. -/
theorem startup_fatal_iff_step_fails_witness :
    Getenv [] "PG_HOST" = "" ∧
    (main [] (scripted [evt123] none) unreachable none).status = 1 :=
  ⟨(startup_fatal_iff_step_fails [] (scripted [evt123] none) unreachable none).1
      "PG_HOST" rfl,
    (startup_fatal_iff_step_fails [] (scripted [evt123] none) unreachable none).2.2
      (by decide)⟩

theorem psqlInfo_eq (env : Env) :
    psqlInfo env =
      "host=" ++ Getenv env "PG_HOST" ++ " user=" ++ Getenv env "PG_USER" ++
        " password=" ++ Getenv env "PG_USER" ++ " dbname=" ++ Getenv env "PG_USER" ++
        " sslmode=disable" := by
  apply String.ext
  simp [psqlInfo, Sprintf, formatChars, String.data_append]

theorem initDB_trace_head {σ : Type} (env : Env) (pf : Platform) (st : Store σ) (s : σ) :
    (initDB env pf st s).trace.head? = some (.sqlOpen "postgres" (psqlInfo env)) := by
  rcases hopen : pf.sqlOpen "postgres" (psqlInfo env) with _ | e1
  · rcases hping : st.PingContext (handleOf env) s with _ | e2
    · rcases hcreate : (st.ExecContext (handleOf env) s createTableSQL []).2 with _ | e3
      · rw [initDB_ok env pf st s hopen hping hcreate]; rfl
      · rw [initDB_create_error env pf st s e3 hopen hping hcreate]; rfl
    · rw [initDB_ping_error env pf st s e2 hopen hping]; rfl
  · rw [initDB_open_error env pf st s e1 hopen]; rfl

/-! ## C10 -/

/-- C10: in every environment the connection string `initDB` hands to `sql.Open` is
`host=H user=U password=U dbname=U sslmode=disable`, with `H` the value of `PG_HOST` and
`U` the value of `PG_USER`, each the empty string when unset; the password and the
database name are the user name, and environments that agree on `PG_HOST` and `PG_USER`
give the same connection string. -/
theorem psqlInfo_from_host_and_user {σ : Type} (env env2 : Env) (pf : Platform)
    (st : Store σ) (s : σ) :
    psqlInfo env =
      "host=" ++ Getenv env "PG_HOST" ++ " user=" ++ Getenv env "PG_USER" ++
        " password=" ++ Getenv env "PG_USER" ++ " dbname=" ++ Getenv env "PG_USER" ++
        " sslmode=disable" ∧
    (initDB env pf st s).trace.head? =
      some (.sqlOpen "postgres"
        ("host=" ++ Getenv env "PG_HOST" ++ " user=" ++ Getenv env "PG_USER" ++
          " password=" ++ Getenv env "PG_USER" ++ " dbname=" ++ Getenv env "PG_USER" ++
          " sslmode=disable")) ∧
    (isSet env "PG_HOST" = false → Getenv env "PG_HOST" = "") ∧
    (isSet env "PG_USER" = false → Getenv env "PG_USER" = "") ∧
    (Getenv env2 "PG_HOST" = Getenv env "PG_HOST" →
      Getenv env2 "PG_USER" = Getenv env "PG_USER" → psqlInfo env2 = psqlInfo env) := by
  refine ⟨psqlInfo_eq env, ?_, Getenv_of_not_set env _, Getenv_of_not_set env _, ?_⟩
  · rw [initDB_trace_head, psqlInfo_eq]
  · intro h1 h2
    rw [psqlInfo_eq, psqlInfo_eq, h1, h2]

/-- Witness for C10: an environment that sets only `PG_USER`, and one that also sets
unrelated variables. -/
theorem psqlInfo_from_host_and_user_witness :
    psqlInfo [("PG_USER", "payments")] =
      "host= user=payments password=payments dbname=payments sslmode=disable" ∧
    psqlInfo [("GCP_PROJECT", "acme"), ("PG_USER", "payments"), ("PG_PASSWORD", "s3cret")] =
      psqlInfo [("PG_USER", "payments")] :=
  ⟨by decide,
    (psqlInfo_from_host_and_user [("PG_USER", "payments")]
      [("GCP_PROJECT", "acme"), ("PG_USER", "payments"), ("PG_PASSWORD", "s3cret")]
      (scripted [] none) tableStore none).2.2.2.2 (by decide) (by decide)⟩

/-! ## Facts about schedules -/

theorem runSchedule_nil {σ : Type} (st : Store σ) (db : DB) (p : Pool σ) :
    runSchedule st db p [] = p := rfl

theorem runSchedule_cons {σ : Type} (st : Store σ) (db : DB) (p : Pool σ) (ev : Event)
    (evs : List Event) :
    runSchedule st db p (ev :: evs) = runSchedule st db (runEvent st db p ev) evs := rfl

theorem runSchedule_append {σ : Type} (st : Store σ) (db : DB) (p : Pool σ)
    (a b : List Event) :
    runSchedule st db p (a ++ b) = runSchedule st db (runSchedule st db p a) b := by
  simp [runSchedule, List.foldl_append]

theorem runEvent_exited {σ : Type} (st : Store σ) (db : DB) (p : Pool σ) (ev : Event)
    (c : Nat) (h : p.status = some c) : runEvent st db p ev = p := by
  simp only [runEvent, h]

/-- After the process has exited, no event changes anything. -/
theorem runSchedule_exited {σ : Type} (st : Store σ) (db : DB) (evs : List Event) :
    ∀ (p : Pool σ) (c : Nat), p.status = some c → runSchedule st db p evs = p := by
  induction evs with
  | nil => intro p c _; rfl
  | cons ev evs ih =>
    intro p c h
    rw [runSchedule_cons, runEvent_exited st db p ev c h]
    exact ih p c h

theorem runEvent_deliver {σ : Type} (st : Store σ) (db : DB) (p : Pool σ) (m : Message)
    (h : p.status = none) :
    runEvent st db p (.deliver m) =
      ⟨p.store, p.trace, p.callbacks ++ [(m, .logging)], p.status⟩ := by
  simp only [runEvent, h]

theorem runEvent_step {σ : Type} (st : Store σ) (db : DB) (p : Pool σ) (i : Nat)
    (h : p.status = none) : runEvent st db p (.step i) = stepCallback st db p i := by
  simp only [runEvent, h]

theorem stepCallback_callbacks_ne {σ : Type} (st : Store σ) (db : DB) (p : Pool σ)
    (i j : Nat) (h : j ≠ i) :
    (stepCallback st db p j).callbacks[i]? = p.callbacks[i]? := by
  unfold stepCallback
  split
  · rfl
  · simp [List.getElem?_set_ne h]
  · split <;> simp [List.getElem?_set_ne h]
  · simp [List.getElem?_set_ne h]
  · simp [List.getElem?_set_ne h]
  · rfl
  · rfl

theorem stepCallback_status {σ : Type} (st : Store σ) (db : DB) (p : Pool σ) (j : Nat) :
    (stepCallback st db p j).status = p.status ∨ (stepCallback st db p j).status = some 1 := by
  unfold stepCallback
  split
  · exact Or.inl rfl
  · exact Or.inl rfl
  · split <;> exact Or.inl rfl
  · exact Or.inl rfl
  · exact Or.inl rfl
  · exact Or.inr rfl
  · exact Or.inl rfl

theorem stepCallback_failing {σ : Type} (st : Store σ) (db : DB) (p : Pool σ) (i : Nat)
    (m : Message) (e : GoError) (h : p.callbacks[i]? = some (m, .failing e)) :
    stepCallback st db p i =
      ⟨p.store, p.trace ++ [(i, .log e.Error)], p.callbacks.set i (m, .exiting e),
        p.status⟩ := by
  simp only [stepCallback, h]

theorem stepCallback_exiting {σ : Type} (st : Store σ) (db : DB) (p : Pool σ) (i : Nat)
    (m : Message) (e : GoError) (h : p.callbacks[i]? = some (m, .exiting e)) :
    stepCallback st db p i = ⟨p.store, p.trace, p.callbacks, some 1⟩ := by
  simp only [stepCallback, h]

theorem stepCallback_inserting_error {σ : Type} (st : Store σ) (db : DB) (p : Pool σ)
    (i : Nat) (m : Message) (e : GoError) (h : p.callbacks[i]? = some (m, .inserting))
    (hfail : (st.ExecContext db p.store insertSQL [m.ID]).2 = some e) :
    stepCallback st db p i =
      ⟨(st.ExecContext db p.store insertSQL [m.ID]).1,
        p.trace ++ [(i, .exec db insertSQL [m.ID])],
        p.callbacks.set i (m, .failing e), p.status⟩ := by
  rcases hx : st.ExecContext db p.store insertSQL [m.ID] with ⟨s1, r⟩
  rw [hx] at hfail
  simp only at hfail
  subst hfail
  simp only [stepCallback, h, hx]

theorem getElem?_lt_of_some {α : Type} (l : List α) (i : Nat) (a : α)
    (h : l[i]? = some a) : i < l.length := by
  rcases List.getElem?_eq_some_iff.mp h with ⟨hlt, _⟩
  exact hlt

/-- The exit status of a running pool is unset or 1. -/
theorem runEvent_status {σ : Type} (st : Store σ) (db : DB) (p : Pool σ) (ev : Event)
    (h : p.status = none ∨ p.status = some 1) :
    (runEvent st db p ev).status = none ∨ (runEvent st db p ev).status = some 1 := by
  rcases hs : p.status with _ | c
  · cases ev with
    | deliver m => rw [runEvent_deliver st db p m hs]; exact Or.inl hs
    | step j =>
      rw [runEvent_step st db p j hs]
      rcases stepCallback_status st db p j with h1 | h1
      · rw [h1]; exact Or.inl hs
      · exact Or.inr h1
  · rw [runEvent_exited st db p ev c hs]; exact h

theorem runSchedule_status {σ : Type} (st : Store σ) (db : DB) (evs : List Event) :
    ∀ p : Pool σ, (p.status = none ∨ p.status = some 1) →
      ((runSchedule st db p evs).status = none ∨
        (runSchedule st db p evs).status = some 1) := by
  induction evs with
  | nil => intro p h; exact h
  | cons ev evs ih =>
    intro p h
    rw [runSchedule_cons]
    exact ih _ (runEvent_status st db p ev h)

/-- A callback whose insert returned an error stays on the path of `log.Fatal`: it never
inserts again and never reaches `Ack`. -/
theorem runEvent_failed {σ : Type} (st : Store σ) (db : DB) (p : Pool σ) (ev : Event)
    (i : Nat) (m : Message) (e : GoError)
    (h : p.callbacks[i]? = some (m, .failing e) ∨ p.callbacks[i]? = some (m, .exiting e)) :
    (runEvent st db p ev).callbacks[i]? = some (m, .failing e) ∨
      (runEvent st db p ev).callbacks[i]? = some (m, .exiting e) := by
  have hlt : i < p.callbacks.length := by
    rcases h with h | h <;> exact getElem?_lt_of_some _ _ _ h
  rcases hs : p.status with _ | c
  · cases ev with
    | deliver m2 =>
      rw [runEvent_deliver st db p m2 hs]
      simp only [List.getElem?_append_left hlt]
      exact h
    | step j =>
      rw [runEvent_step st db p j hs]
      by_cases hj : j = i
      · subst hj
        rcases h with h | h
        · rw [stepCallback_failing st db p j m e h]
          exact Or.inr (by simp [List.getElem?_set_self hlt])
        · rw [stepCallback_exiting st db p j m e h]
          exact Or.inr h
      · rw [stepCallback_callbacks_ne st db p i j hj]
        exact h
  · rw [runEvent_exited st db p ev c hs]; exact h

theorem runSchedule_failed {σ : Type} (st : Store σ) (db : DB) (i : Nat) (m : Message)
    (e : GoError) (evs : List Event) :
    ∀ p : Pool σ,
      (p.callbacks[i]? = some (m, .failing e) ∨ p.callbacks[i]? = some (m, .exiting e)) →
      ((runSchedule st db p evs).callbacks[i]? = some (m, .failing e) ∨
        (runSchedule st db p evs).callbacks[i]? = some (m, .exiting e)) := by
  induction evs with
  | nil => intro p h; exact h
  | cons ev evs ih =>
    intro p h
    rw [runSchedule_cons]
    exact ih _ (runEvent_failed st db p ev i m e h)

/-- A callback that has logged the error of `log.Fatal` stays before its `os.Exit(1)`. -/
theorem runEvent_exiting {σ : Type} (st : Store σ) (db : DB) (p : Pool σ) (ev : Event)
    (i : Nat) (m : Message) (e : GoError) (h : p.callbacks[i]? = some (m, .exiting e)) :
    (runEvent st db p ev).callbacks[i]? = some (m, .exiting e) := by
  have hlt : i < p.callbacks.length := getElem?_lt_of_some _ _ _ h
  rcases hs : p.status with _ | c
  · cases ev with
    | deliver m2 =>
      rw [runEvent_deliver st db p m2 hs]
      simp only [List.getElem?_append_left hlt]
      exact h
    | step j =>
      rw [runEvent_step st db p j hs]
      by_cases hj : j = i
      · subst hj
        rw [stepCallback_exiting st db p j m e h]
        exact h
      · rw [stepCallback_callbacks_ne st db p i j hj]
        exact h
  · rw [runEvent_exited st db p ev c hs]; exact h

theorem runSchedule_exiting {σ : Type} (st : Store σ) (db : DB) (i : Nat) (m : Message)
    (e : GoError) (evs : List Event) :
    ∀ p : Pool σ, p.callbacks[i]? = some (m, .exiting e) →
      (runSchedule st db p evs).callbacks[i]? = some (m, .exiting e) := by
  induction evs with
  | nil => intro p h; exact h
  | cons ev evs ih =>
    intro p h
    rw [runSchedule_cons]
    exact ih _ (runEvent_exiting st db p ev i m e h)

theorem effectsBy_append_same (i : Nat) (tr : List (Nat × Effect)) (eff : Effect) :
    effectsBy i (tr ++ [(i, eff)]) = effectsBy i tr ++ [eff] := by
  simp [effectsBy, List.filter_append]

theorem effectsBy_append_ne (i j : Nat) (tr : List (Nat × Effect)) (eff : Effect)
    (h : j ≠ i) : effectsBy i (tr ++ [(j, eff)]) = effectsBy i tr := by
  simp [effectsBy, List.filter_append, h]

/-- One step of a callback adds its effect to what that callback has performed and
leaves the record of every other callback as it is. -/
theorem effects_step (db : DB) (tr : List (Nat × Effect)) (cbs : List (Message × Pc))
    (j : Nat) (m : Message) (pc pc2 : Pc) (eff : Effect)
    (hj : cbs[j]? = some (m, pc))
    (hstep : effectsAt db (some (m, pc2)) = effectsAt db (some (m, pc)) ++ [eff])
    (hinv : ∀ i, effectsBy i tr = effectsAt db cbs[i]?) :
    ∀ i, effectsBy i (tr ++ [(j, eff)]) = effectsAt db (cbs.set j (m, pc2))[i]? := by
  intro i
  have hlt : j < cbs.length := getElem?_lt_of_some _ _ _ hj
  by_cases h : j = i
  · subst h
    rw [effectsBy_append_same, hinv j, hj, List.getElem?_set_self hlt, hstep]
  · rw [effectsBy_append_ne i j tr eff h, List.getElem?_set_ne h, hinv i]

theorem stepCallback_effects {σ : Type} (st : Store σ) (db : DB) (p : Pool σ) (j : Nat)
    (hinv : ∀ i, effectsBy i p.trace = effectsAt db p.callbacks[i]?) :
    ∀ i, effectsBy i (stepCallback st db p j).trace =
      effectsAt db (stepCallback st db p j).callbacks[i]? := by
  unfold stepCallback
  split
  · exact hinv
  · next m hj => exact effects_step db _ _ j m _ _ _ hj rfl hinv
  · next m hj =>
    split
    · exact effects_step db _ _ j m _ _ _ hj rfl hinv
    · exact effects_step db _ _ j m _ _ _ hj rfl hinv
  · next m hj => exact effects_step db _ _ j m _ _ _ hj rfl hinv
  · next m err hj => exact effects_step db _ _ j m _ _ _ hj rfl hinv
  · exact hinv
  · exact hinv

theorem runEvent_effects {σ : Type} (st : Store σ) (db : DB) (p : Pool σ) (ev : Event)
    (hinv : ∀ i, effectsBy i p.trace = effectsAt db p.callbacks[i]?) :
    ∀ i, effectsBy i (runEvent st db p ev).trace =
      effectsAt db (runEvent st db p ev).callbacks[i]? := by
  rcases hs : p.status with _ | c
  · cases ev with
    | deliver m =>
      rw [runEvent_deliver st db p m hs]
      intro i
      simp only
      rw [hinv i, List.getElem?_append]
      by_cases hlt : i < p.callbacks.length
      · rw [if_pos hlt]
      · rw [if_neg hlt, List.getElem?_eq_none (Nat.le_of_not_lt hlt)]
        rcases Nat.eq_zero_or_pos (i - p.callbacks.length) with h0 | hpos
        · rw [h0]; rfl
        · rw [List.getElem?_eq_none (by simp only [List.length_singleton]; omega)]
    | step j =>
      rw [runEvent_step st db p j hs]
      exact stepCallback_effects st db p j hinv
  · rw [runEvent_exited st db p ev c hs]; exact hinv

/-- In every pool reached from the start, what each callback has performed is
determined by the point it has reached. -/
theorem runSchedule_effects {σ : Type} (st : Store σ) (db : DB) (evs : List Event) :
    ∀ p : Pool σ, (∀ i, effectsBy i p.trace = effectsAt db p.callbacks[i]?) →
      ∀ i, effectsBy i (runSchedule st db p evs).trace =
        effectsAt db (runSchedule st db p evs).callbacks[i]? := by
  induction evs with
  | nil => intro p h; exact h
  | cons ev evs ih =>
    intro p h
    rw [runSchedule_cons]
    exact ih _ (runEvent_effects st db p ev h)

theorem startPool_effects {σ : Type} (db : DB) (s : σ) :
    ∀ i, effectsBy i (startPool s).trace = effectsAt db (startPool s).callbacks[i]? := by
  intro i
  simp [startPool, effectsBy, effectsAt]

theorem nackCount_append_one (tr : List (Nat × Effect)) (j : Nat) (eff : Effect)
    (h : ∀ id, eff ≠ .nack id) :
    nackCount (effectsOf (tr ++ [(j, eff)])) = nackCount (effectsOf tr) := by
  cases eff <;> simp_all [nackCount, effectsOf, List.countP_append]

theorem stepCallback_nackCount {σ : Type} (st : Store σ) (db : DB) (p : Pool σ) (j : Nat) :
    nackCount (effectsOf (stepCallback st db p j).trace) = nackCount (effectsOf p.trace) := by
  unfold stepCallback
  split
  · rfl
  · exact nackCount_append_one _ _ _ (by intro id h; cases h)
  · split <;> exact nackCount_append_one _ _ _ (by intro id h; cases h)
  · exact nackCount_append_one _ _ _ (by intro id h; cases h)
  · exact nackCount_append_one _ _ _ (by intro id h; cases h)
  · rfl
  · rfl

/-- No schedule sends a `Nack`. -/
theorem runSchedule_nackCount {σ : Type} (st : Store σ) (db : DB) (evs : List Event) :
    ∀ p : Pool σ, nackCount (effectsOf (runSchedule st db p evs).trace) =
      nackCount (effectsOf p.trace) := by
  induction evs with
  | nil => intro p; rfl
  | cons ev evs ih =>
    intro p
    rw [runSchedule_cons, ih]
    rcases hs : p.status with _ | c
    · cases ev with
      | deliver m => rw [runEvent_deliver st db p m hs]
      | step j => rw [runEvent_step st db p j hs]; exact stepCallback_nackCount st db p j
    · rw [runEvent_exited st db p ev c hs]

theorem step_failed_progress {σ : Type} (st : Store σ) (db : DB) (p : Pool σ) (i : Nat)
    (m : Message) (e : GoError) (hs : p.status = none ∨ p.status = some 1)
    (h : p.callbacks[i]? = some (m, .failing e) ∨ p.callbacks[i]? = some (m, .exiting e)) :
    (runEvent st db p (.step i)).status = some 1 ∨
      ((runEvent st db p (.step i)).status = none ∧
        (runEvent st db p (.step i)).callbacks[i]? = some (m, .exiting e)) := by
  rcases hs with hs | hs
  · rw [runEvent_step st db p i hs]
    rcases h with h | h
    · rw [stepCallback_failing st db p i m e h]
      exact Or.inr ⟨hs, by simp [List.getElem?_set_self (getElem?_lt_of_some _ _ _ h)]⟩
    · rw [stepCallback_exiting st db p i m e h]
      exact Or.inl rfl
  · rw [runEvent_exited st db p _ 1 hs]
    exact Or.inl hs

theorem step_exiting_exits {σ : Type} (st : Store σ) (db : DB) (p : Pool σ) (i : Nat)
    (m : Message) (e : GoError) (mid : List Event)
    (h : p.status = some 1 ∨
      (p.status = none ∧ p.callbacks[i]? = some (m, .exiting e))) :
    (runEvent st db (runSchedule st db p mid) (.step i)).status = some 1 := by
  rcases h with h | ⟨hs, h⟩
  · rw [runSchedule_exited st db mid p 1 h, runEvent_exited st db p _ 1 h]
    exact h
  · have hq := runSchedule_exiting st db i m e mid p h
    rcases runSchedule_status st db mid p (Or.inl hs) with hqs | hqs
    · rw [runEvent_step st db _ i hqs, stepCallback_exiting st db _ i m e hq]
    · rw [runEvent_exited st db _ _ 1 hqs]
      exact hqs

/-! ## C9 -/

/-- C9 fails as stated: the callback of the second message logs its payload, the third
message, delivered after it, is inserted and acknowledged, and then the insert of the
second message returns an error and the process exits with status 1.  A message
delivered after the failing one has been handled. -/
theorem later_message_acked_before_exit :
    (runSchedule (rejecting "evt-124") (handleOf fullEnv) (startPool (some []))
        overlapping).status = some 1 ∧
    effectsBy 1 (runSchedule (rejecting "evt-124") (handleOf fullEnv) (startPool (some []))
        overlapping).trace =
      [.log "Got message: second", .exec (handleOf fullEnv) insertSQL ["evt-124"],
        .log "pq: connection refused"] ∧
    effectsBy 2 (runSchedule (rejecting "evt-124") (handleOf fullEnv) (startPool (some []))
        overlapping).trace =
      [.log "Got message: third", .exec (handleOf fullEnv) insertSQL ["evt-125"],
        .ack "evt-125"] ∧
    ackCount (effectsOf (runSchedule (rejecting "evt-124") (handleOf fullEnv)
        (startPool (some [])) overlapping).trace) = 2 ∧
    (runSchedule (rejecting "evt-124") (handleOf fullEnv) (startPool (some []))
        overlapping).store = some ["evt-123", "evt-125"] := by
  decide

/-- C9 as amended: when the insert of a delivered message returns an error `e`, its
callback goes through `log.Fatal`: whatever else is scheduled, that callback performs
nothing but its log line, its one insert and the log of `e` (no `Ack`, no retry of the
insert), no `Nack` is sent, and once the callback has logged `e` and called
`os.Exit(1)` the process has exited with status 1 and nothing happens afterwards: the
result does not depend on the deliveries and steps scheduled after the exit.  Callbacks
of other messages, also of messages delivered after the failing one, may be handled
before the exit. -/
theorem failed_insert_exits_process {σ : Type} (st : Store σ) (db : DB) (s : σ)
    (evs : List Event) (i : Nat) (m : Message) (e : GoError)
    (hpc : (runSchedule st db (startPool s) evs).callbacks[i]? = some (m, .inserting))
    (hlive : (runSchedule st db (startPool s) evs).status = none)
    (hfail : (st.ExecContext db (runSchedule st db (startPool s) evs).store insertSQL
      [m.ID]).2 = some e) :
    (∀ rest : List Event,
      (effectsBy i (runSchedule st db (startPool s) (evs ++ .step i :: rest)).trace =
          [.log (Sprintf "Got message: %s" [m.Data]), .exec db insertSQL [m.ID]] ∨
        effectsBy i (runSchedule st db (startPool s) (evs ++ .step i :: rest)).trace =
          [.log (Sprintf "Got message: %s" [m.Data]), .exec db insertSQL [m.ID],
            .log e.Error]) ∧
      nackCount (effectsOf
        (runSchedule st db (startPool s) (evs ++ .step i :: rest)).trace) = 0 ∧
      ((runSchedule st db (startPool s) (evs ++ .step i :: rest)).status = none ∨
        (runSchedule st db (startPool s) (evs ++ .step i :: rest)).status = some 1)) ∧
    (∀ mid1 mid2 post : List Event,
      (runSchedule st db (startPool s)
        (evs ++ (.step i :: mid1) ++ (.step i :: mid2) ++ (.step i :: post))).status =
          some 1 ∧
      runSchedule st db (startPool s)
          (evs ++ (.step i :: mid1) ++ (.step i :: mid2) ++ (.step i :: post)) =
        runSchedule st db (startPool s)
          (evs ++ (.step i :: mid1) ++ (.step i :: mid2) ++ [.step i])) := by
  have hlt := getElem?_lt_of_some _ _ _ hpc
  have h1 : runEvent st db (runSchedule st db (startPool s) evs) (.step i) =
      ⟨(st.ExecContext db (runSchedule st db (startPool s) evs).store insertSQL [m.ID]).1,
        (runSchedule st db (startPool s) evs).trace ++ [(i, .exec db insertSQL [m.ID])],
        (runSchedule st db (startPool s) evs).callbacks.set i (m, .failing e),
        (runSchedule st db (startPool s) evs).status⟩ := by
    rw [runEvent_step st db _ i hlive, stepCallback_inserting_error st db _ i m e hpc hfail]
  have h1s : (runEvent st db (runSchedule st db (startPool s) evs) (.step i)).status =
      none := by rw [h1]; exact hlive
  have h1f : (runEvent st db (runSchedule st db (startPool s) evs) (.step i)).callbacks[i]? =
      some (m, .failing e) := by
    rw [h1]; simp [List.getElem?_set_self hlt]
  constructor
  · intro rest
    rw [runSchedule_append, runSchedule_cons]
    refine ⟨?_, ?_, ?_⟩
    · have hinv := runSchedule_effects st db (evs ++ .step i :: rest) (startPool s)
        (startPool_effects db s) i
      rw [runSchedule_append, runSchedule_cons] at hinv
      rw [hinv]
      rcases runSchedule_failed st db i m e rest _ (Or.inl h1f) with hf | hf
      · rw [hf]; exact Or.inl rfl
      · rw [hf]; exact Or.inr rfl
    · have hn := runSchedule_nackCount st db (evs ++ .step i :: rest) (startPool s)
      rw [runSchedule_append, runSchedule_cons] at hn
      rw [hn]
      rfl
    · exact runSchedule_status st db rest _ (Or.inl h1s)
  · intro mid1 mid2 post
    have hexit : (runSchedule st db (startPool s)
        (evs ++ (.step i :: mid1) ++ (.step i :: mid2) ++ [.step i])).status = some 1 := by
      rw [runSchedule_append, runSchedule_append, runSchedule_append, runSchedule_cons,
        runSchedule_cons, runSchedule_cons, runSchedule_nil]
      apply step_exiting_exits st db _ i m e mid2
      exact step_failed_progress st db _ i m e
        (runSchedule_status st db mid1 _ (Or.inl h1s))
        (runSchedule_failed st db i m e mid1 _ (Or.inl h1f))
    have hsplit : runSchedule st db (startPool s)
        (evs ++ (.step i :: mid1) ++ (.step i :: mid2) ++ (.step i :: post)) =
        runSchedule st db (runSchedule st db (startPool s)
          (evs ++ (.step i :: mid1) ++ (.step i :: mid2) ++ [.step i])) post := by
      rw [← runSchedule_append]
      simp
    rw [hsplit, runSchedule_exited st db post _ 1 hexit]
    exact ⟨hexit, rfl⟩

/-- Witness for C9 as amended: in the overlapping schedule the insert of the second
message fails after the third message was acknowledged; after the two further steps of
the second callback the process has exited with status 1, and the step of the third
callback scheduled after the exit changes nothing. -/
theorem failed_insert_exits_process_witness :
    (runSchedule (rejecting "evt-124") (handleOf fullEnv) (startPool (some []))
      ([.deliver evt123, .deliver ⟨"evt-124", "second"⟩, .deliver ⟨"evt-125", "third"⟩,
          .step 0, .step 0, .step 0, .step 1, .step 2, .step 2, .step 2] ++
        (.step 1 :: []) ++ (.step 1 :: []) ++ (.step 1 :: [.step 2]))).status = some 1 ∧
    runSchedule (rejecting "evt-124") (handleOf fullEnv) (startPool (some []))
        ([.deliver evt123, .deliver ⟨"evt-124", "second"⟩, .deliver ⟨"evt-125", "third"⟩,
            .step 0, .step 0, .step 0, .step 1, .step 2, .step 2, .step 2] ++
          (.step 1 :: []) ++ (.step 1 :: []) ++ (.step 1 :: [.step 2])) =
      runSchedule (rejecting "evt-124") (handleOf fullEnv) (startPool (some []))
        ([.deliver evt123, .deliver ⟨"evt-124", "second"⟩, .deliver ⟨"evt-125", "third"⟩,
            .step 0, .step 0, .step 0, .step 1, .step 2, .step 2, .step 2] ++
          (.step 1 :: []) ++ (.step 1 :: []) ++ [.step 1]) :=
  (failed_insert_exits_process (rejecting "evt-124") (handleOf fullEnv) (some [])
    [.deliver evt123, .deliver ⟨"evt-124", "second"⟩, .deliver ⟨"evt-125", "third"⟩,
      .step 0, .step 0, .step 0, .step 1, .step 2, .step 2, .step 2]
    1 ⟨"evt-124", "second"⟩ (.base "pq: connection refused")
    (by decide) (by decide) (by decide)).2 [] [] [.step 2]

theorem set_last {α : Type} (l : List α) (x y : α) :
    (l ++ [x]).set l.length y = l ++ [y] := by
  rw [List.set_append_right _ _ (Nat.le_refl _)]
  simp

/-- The serial schedule of one message from a running pool: the callback runs as the
handler does. -/
theorem runSchedule_serial_one {σ : Type} (st : Store σ) (db : DB) (s : σ)
    (tr : List (Nat × Effect)) (cbs : List (Message × Pc)) (m : Message) :
    ∃ cbs2 : List (Message × Pc), cbs2.length = cbs.length + 1 ∧
    ∃ tr2 : List (Nat × Effect), effectsOf tr2 = effectsOf tr ++ (handler st db s m).trace ∧
      runSchedule st db ⟨s, tr, cbs, none⟩
          [.deliver m, .step cbs.length, .step cbs.length, .step cbs.length,
            .step cbs.length] =
        ⟨(handler st db s m).store, tr2, cbs2, exitStatus (handler st db s m).flow⟩ := by
  rcases hx : (st.ExecContext db s insertSQL [m.ID]).2 with _ | err
  · rw [handler_of_ok st db s m hx]
    rcases hy : st.ExecContext db s insertSQL [m.ID] with ⟨s1, r⟩
    rw [hy] at hx
    simp only at hx
    subst hx
    refine ⟨cbs ++ [(m, .finished)], by simp,
      tr ++ [(cbs.length, .log (Sprintf "Got message: %s" [m.Data])),
        (cbs.length, .exec db insertSQL [m.ID]), (cbs.length, .ack m.ID)], ?_, ?_⟩
    · simp [effectsOf]
    · simp [runSchedule, runEvent, stepCallback, set_last, hy, exitStatus]
  · rw [handler_of_error st db s m err hx]
    rcases hy : st.ExecContext db s insertSQL [m.ID] with ⟨s1, r⟩
    rw [hy] at hx
    simp only at hx
    subst hx
    refine ⟨cbs ++ [(m, .exiting err)], by simp,
      tr ++ [(cbs.length, .log (Sprintf "Got message: %s" [m.Data])),
        (cbs.length, .exec db insertSQL [m.ID]), (cbs.length, .log err.Error)], ?_, ?_⟩
    · simp [effectsOf]
    · simp [runSchedule, runEvent, stepCallback, set_last, hy, exitStatus]

/-- The function `deliver` is the serial schedule: run from the start of `Receive`, the
schedule that finishes each callback before the next delivery leaves the store, the
effects in order and the exit status that `deliver` computes. -/
theorem runSchedule_serial {σ : Type} (st : Store σ) (db : DB) (msgs : List Message) :
    ∀ (s : σ) (tr : List (Nat × Effect)) (cbs : List (Message × Pc)),
      ∃ (tr2 : List (Nat × Effect)) (cbs2 : List (Message × Pc)),
        effectsOf tr2 = effectsOf tr ++ (deliver st db s msgs).trace ∧
        runSchedule st db ⟨s, tr, cbs, none⟩ (serial cbs.length msgs) =
          ⟨(deliver st db s msgs).store, tr2, cbs2,
            exitStatus (deliver st db s msgs).flow⟩ := by
  induction msgs with
  | nil =>
    intro s tr cbs
    exact ⟨tr, cbs, by simp [deliver_nil], rfl⟩
  | cons m ms ih =>
    intro s tr cbs
    obtain ⟨cbs1, hlen, tr1, htr1, hrun⟩ := runSchedule_serial_one st db s tr cbs m
    rw [serial, runSchedule_append, hrun]
    rcases hx : (st.ExecContext db s insertSQL [m.ID]).2 with _ | err
    · have hh := handler_of_ok st db s m hx
      rw [hh] at htr1 ⊢
      obtain ⟨tr2, cbs2, htr2, hrun2⟩ := ih (st.ExecContext db s insertSQL [m.ID]).1 tr1 cbs1
      rw [hlen] at hrun2
      refine ⟨tr2, cbs2, ?_, ?_⟩
      · rw [htr2, htr1, deliver_cons_ok st db s m ms hx]
        simp
      · rw [deliver_cons_ok st db s m ms hx]
        exact hrun2
    · have hh := handler_of_error st db s m err hx
      rw [hh] at htr1 ⊢
      rw [runSchedule_exited st db _ _ 1 rfl, deliver_cons_error st db s m ms err hx]
      exact ⟨tr1, cbs1, htr1, rfl⟩

/-- The serial schedule from the start of `Receive`. -/
theorem serial_eq_deliver {σ : Type} (st : Store σ) (db : DB) (s : σ)
    (msgs : List Message) :
    (runSchedule st db (startPool s) (serial 0 msgs)).store = (deliver st db s msgs).store ∧
    effectsOf (runSchedule st db (startPool s) (serial 0 msgs)).trace =
      (deliver st db s msgs).trace ∧
    (runSchedule st db (startPool s) (serial 0 msgs)).status =
      exitStatus (deliver st db s msgs).flow := by
  obtain ⟨tr2, cbs2, htr, hrun⟩ := runSchedule_serial st db msgs s [] []
  have hstart : startPool s = ⟨s, [], [], none⟩ := rfl
  rw [hstart]
  simp only [List.length_nil] at hrun
  rw [hrun]
  exact ⟨rfl, by simpa [effectsOf] using htr, rfl⟩

end EnvConsumer
